import Mathlib

/-!
# libfiber: join/detach rendezvous protocol and the fiber key registry

A shallow embedding of `src/src/fiber.c` and `src/include/fiber.h`.

* Pointers (`void*`, `fiber_t*`) are natural numbers, `NULL` is `0`.
* The heap maps a `fiber_t*` to the fields of the fiber it points to.
* Every C function becomes a function on an explicit `World`; a call that parks its
  caller inside the scheduler ends with the outcome `suspended` (inside
  `fiber_manager_set_and_wait`) or `waiting` (the waiting branch of
  `fiber_manager_clear_or_wait`), and the code after a `set_and_wait` is a separate
  `_resume` function.
* The whole-call functions (`fiber_join`, ...) run a call with no step of another fiber in
  between. `Pc.step` takes the same code one atomic step at a time (every read, write,
  exchange and scheduler call apart), so that calls of several fibers can be interleaved;
  `Pc.runCall` runs a call alone and gives the whole-call function again.
-/

namespace LibFiber

/-! ## Data model (`fiber.h`) -/

/-- A machine address; `0` is the null pointer. -/
abbrev Ptr := Nat

/-- The null pointer. -/
abbrev NULL : Ptr := 0

/-- The capacity of the key table, `#define FIBER_KEYS_MAX 1024`. -/
abbrev FIBER_KEYS_MAX : Nat := 1024

abbrev FIBER_STATE_RUNNING : Int := 1
abbrev FIBER_STATE_READY : Int := 2
abbrev FIBER_STATE_WAITING : Int := 3
abbrev FIBER_STATE_DONE : Int := 4
abbrev FIBER_STATE_SAVING_STATE_TO_WAIT : Int := 5

abbrev FIBER_DETACH_NONE : Int := 0
abbrev FIBER_DETACH_WAIT_FOR_JOINER : Int := 1
abbrev FIBER_DETACH_WAIT_TO_JOIN : Int := 2
abbrev FIBER_DETACH_DETACHED : Int := 3

/-- Modelled from the spec: the result codes `FIBER_SUCCESS` and `FIBER_ERROR` come from
`fiber_context.h`, which is not among the sources; section 6 of the spec says that the
operations report "success / error, no other values". -/
inductive RetCode
  | FIBER_SUCCESS
  | FIBER_ERROR
  deriving DecidableEq, Repr

export RetCode (FIBER_SUCCESS FIBER_ERROR)

/-- The fields of `struct fiber` that `fiber.c` reads or writes (the opaque `context`
and the unused `scratch` are left out). -/
structure Fiber where
  state : Int
  run_function : Ptr
  param : Ptr
  id : Nat
  result : Ptr
  mpsc_fifo_node : Ptr
  detach_state : Int
  join_info : Ptr
  deriving DecidableEq, Repr

/-- The history of the rendezvous slots: which value was stored into the `join_info` of
which fiber, and which value was taken out of it. -/
inductive Event
  | publish (location : Ptr) (value : Ptr)
  | consume (location : Ptr) (value : Ptr)
  deriving DecidableEq, Repr

/-- The state one call runs on: the fibers, the manager's `current_fiber`, the fibers
handed to `fiber_manager_schedule` (oldest first) and the slot history. -/
structure World where
  heap : Ptr → Fiber
  current_fiber : Ptr
  ready : List Ptr
  trace : List Event

/-- How a call ends: it returns, it dies in `assert`, its caller is parked by
`fiber_manager_set_and_wait`, or its caller is parked in the waiting branch of
`fiber_manager_clear_or_wait`. -/
inductive Outcome (α : Type)
  | returned (a : α)
  | aborted
  | suspended
  | waiting
  deriving DecidableEq, Repr

/-- Write through a `fiber_t*`: replace the fiber at `p` by `g` of it. -/
def World.update (w : World) (p : Ptr) (g : Fiber → Fiber) : World :=
  { w with heap := fun q => if q = p then g (w.heap q) else w.heap q }

/-- The manager thread switches to fiber `c`. -/
def World.switchTo (w : World) (c : Ptr) : World :=
  { w with current_fiber := c }

/-! ## The scheduler collaborator (`fiber_manager.h`) -/

/-- Modelled from the spec: `fiber_manager_set_and_wait` lives in `fiber_manager.c`, which
is not among the sources. Section 4.5: "`set_and_wait(slot, value)` atomically publishes
`value` into `slot` and blocks the calling fiber until woken". The slot `&f->join_info` is
named by `f`; the result is the world in which the caller is parked. -/
def fiber_manager_set_and_wait (w : World) (location : Ptr) (value : Ptr) : World :=
  { w.update location (fun fb => { fb with join_info := value }) with
    trace := w.trace ++ [Event.publish location value] }

/-- Modelled from the spec: `fiber_manager_clear_or_wait` lives in `fiber_manager.c`, which
is not among the sources. Section 4.5: "`clear_or_wait(slot)` atomically takes a previously
published value from `slot` if present, else blocks until one is published, returning the
taken value either way". `none` is the waiting branch: nothing is published and the caller
is parked. -/
def fiber_manager_clear_or_wait (w : World) (location : Ptr) : World × Option Ptr :=
  let value := (w.heap location).join_info
  if value = NULL then (w, none)
  else
    ({ w.update location (fun fb => { fb with join_info := NULL }) with
       trace := w.trace ++ [Event.consume location value] }, some value)

/-- Modelled from the spec: `fiber_manager_schedule` lives in `fiber_manager.c`, which is
not among the sources. Section 4.5: "`schedule(fiber)` enqueues a `Ready` fiber for
execution on some manager thread". -/
def fiber_manager_schedule (w : World) (the_fiber : Ptr) : World :=
  { w with ready := w.ready ++ [the_fiber] }

/-! ## Completion, join, try-join and detach (`fiber.c`) -/

/-- Line 41 of `fiber.c`, `the_fiber->state = FIBER_STATE_DONE;`: the end of
`fiber_mark_completed`, also where the finisher continues after `set_and_wait`. -/
def fiber_mark_completed_resume (w : World) (the_fiber : Ptr) : World :=
  w.update the_fiber (fun fb => { fb with state := FIBER_STATE_DONE })

/-- The function `fiber_mark_completed` of `fiber.c`. -/
def fiber_mark_completed (w : World) (the_fiber : Ptr) (result : Ptr) :
    World × Outcome Unit :=
  let w := w.update the_fiber (fun fb => { fb with result := result })
  if (w.heap the_fiber).detach_state ≠ FIBER_DETACH_DETACHED then
    let old_state := (w.heap the_fiber).detach_state
    let w := w.update the_fiber
      (fun fb => { fb with detach_state := FIBER_DETACH_WAIT_FOR_JOINER })
    if old_state = FIBER_DETACH_NONE then
      (fiber_manager_set_and_wait w the_fiber the_fiber, Outcome.suspended)
    else if old_state = FIBER_DETACH_WAIT_TO_JOIN then
      match fiber_manager_clear_or_wait w the_fiber with
      | (w, none) => (w, Outcome.waiting)
      | (w, some to_schedule) =>
        let w := w.update to_schedule
          (fun fb => { fb with result := (w.heap the_fiber).result })
        let w := w.update to_schedule (fun fb => { fb with state := FIBER_STATE_READY })
        let w := fiber_manager_schedule w to_schedule
        (fiber_mark_completed_resume w the_fiber, Outcome.returned ())
    else
      (fiber_mark_completed_resume w the_fiber, Outcome.returned ())
  else
    (fiber_mark_completed_resume w the_fiber, Outcome.returned ())

/-- Lines 151-154 and 169 of `fiber.c`: where `fiber_join` continues once the joiner
parked by `set_and_wait` runs again. `result` is the cell behind the out-parameter
(`none` for a null out-parameter). -/
def fiber_join_resume (w : World) (current_fiber : Ptr) (result : Option Ptr) :
    World × Option Ptr × Outcome RetCode :=
  let result := result.map (fun _ => (w.heap current_fiber).result)
  let w := w.update current_fiber (fun fb => { fb with result := NULL })
  (w, result, Outcome.returned FIBER_SUCCESS)

/-- The function `fiber_join` of `fiber.c`. `result` is the content of the cell behind
the out-parameter before the call (`none` for a null out-parameter); the second component
of the value is its content afterwards. -/
def fiber_join (w : World) (f : Ptr) (result : Option Ptr) :
    World × Option Ptr × Outcome RetCode :=
  if f = NULL then (w, result, Outcome.aborted)
  else
    let result := result.map (fun _ => NULL)
    if (w.heap f).detach_state = FIBER_DETACH_DETACHED then
      (w, result, Outcome.returned FIBER_ERROR)
    else
      let old_state := (w.heap f).detach_state
      let w := w.update f (fun fb => { fb with detach_state := FIBER_DETACH_WAIT_TO_JOIN })
      if old_state = FIBER_DETACH_NONE then
        let current_fiber := w.current_fiber
        (fiber_manager_set_and_wait w f current_fiber, result, Outcome.suspended)
      else if old_state = FIBER_DETACH_WAIT_FOR_JOINER then
        let result := result.map (fun _ => (w.heap f).result)
        match fiber_manager_clear_or_wait w f with
        | (w, none) => (w, result, Outcome.waiting)
        | (w, some to_schedule) =>
          let w := w.update to_schedule (fun fb => { fb with state := FIBER_STATE_READY })
          let w := fiber_manager_schedule w to_schedule
          (w, result, Outcome.returned FIBER_SUCCESS)
      else
        (w, result, Outcome.returned FIBER_ERROR)

/-- Lines 187-199 and 202 of `fiber.c`: the atomic exchange of `fiber_tryjoin` and what
follows it. -/
def fiber_tryjoin_exchange (w : World) (f : Ptr) (result : Option Ptr) :
    World × Option Ptr × Outcome RetCode :=
  let old_state := (w.heap f).detach_state
  let w := w.update f (fun fb => { fb with detach_state := FIBER_DETACH_WAIT_TO_JOIN })
  if old_state = FIBER_DETACH_WAIT_FOR_JOINER then
    let result := result.map (fun _ => (w.heap f).result)
    match fiber_manager_clear_or_wait w f with
    | (w, none) => (w, result, Outcome.waiting)
    | (w, some to_schedule) =>
      let w := w.update to_schedule (fun fb => { fb with state := FIBER_STATE_READY })
      let w := fiber_manager_schedule w to_schedule
      (w, result, Outcome.returned FIBER_SUCCESS)
  else
    (w, result, Outcome.returned FIBER_ERROR)

/-- The function `fiber_tryjoin` of `fiber.c`. -/
def fiber_tryjoin (w : World) (f : Ptr) (result : Option Ptr) :
    World × Option Ptr × Outcome RetCode :=
  if f = NULL then (w, result, Outcome.aborted)
  else
    let result := result.map (fun _ => NULL)
    if (w.heap f).detach_state = FIBER_DETACH_DETACHED then
      (w, result, Outcome.returned FIBER_ERROR)
    else if (w.heap f).detach_state = FIBER_DETACH_WAIT_FOR_JOINER then
      fiber_tryjoin_exchange w f result
    else
      (w, result, Outcome.returned FIBER_ERROR)

/-- The function `fiber_detach` of `fiber.c`. -/
def fiber_detach (w : World) (f : Ptr) : World × Outcome RetCode :=
  if f = NULL then (w, Outcome.returned FIBER_ERROR)
  else
    let old_state := (w.heap f).detach_state
    let w := w.update f (fun fb => { fb with detach_state := FIBER_DETACH_DETACHED })
    if old_state = FIBER_DETACH_WAIT_FOR_JOINER ∨ old_state = FIBER_DETACH_WAIT_TO_JOIN then
      match fiber_manager_clear_or_wait w f with
      | (w, none) => (w, Outcome.waiting)
      | (w, some to_schedule) =>
        let w := w.update to_schedule (fun fb => { fb with state := FIBER_STATE_READY })
        let w := fiber_manager_schedule w to_schedule
        (w, Outcome.returned FIBER_SUCCESS)
    else if old_state = FIBER_DETACH_DETACHED then
      (w, Outcome.returned FIBER_ERROR)
    else
      (w, Outcome.returned FIBER_SUCCESS)

/-! ## The fiber key registry (`fiber.c`, lines 17-19 and 230-278) -/

/-- The globals `__fiber_keys` and `__fiber_key_count`. Only the first `FIBER_KEYS_MAX`
entries of the table exist in the program. -/
structure Registry where
  __fiber_keys : Nat → Ptr
  __fiber_key_count : Int

/-- The loop of `fiber_key_create`, `for (cnt = ...; cnt < FIBER_KEYS_MAX; ++cnt)`, with
`remaining` iterations left: the first `cnt` it stops at, or `none` when it runs out. -/
def fiber_key_create_loop (keys : Nat → Ptr) : Nat → Nat → Option Nat
  | 0, _ => none
  | remaining + 1, cnt =>
    if keys cnt ≠ NULL then some cnt
    else fiber_key_create_loop keys remaining (cnt + 1)

/-- The function `fiber_key_create` of `fiber.c`. `key` is the content of `*key` before
the call; the value holds the registry, `*key` and the status afterwards. -/
def fiber_key_create (g : Registry) (key : Nat) : Registry × Nat × RetCode :=
  match fiber_key_create_loop g.__fiber_keys FIBER_KEYS_MAX 0 with
  | some cnt => (g, cnt, FIBER_SUCCESS)
  | none => (g, key, FIBER_ERROR)

/-- The function `fiber_setspecific` of `fiber.c`; the key is unsigned, so `key < 0`
never holds. -/
def fiber_setspecific (g : Registry) (key : Nat) (value : Ptr) : Registry × RetCode :=
  if key ≥ FIBER_KEYS_MAX ∨ key < 0 then (g, FIBER_ERROR)
  else
    ({ g with __fiber_keys := fun i => if i = key then value else g.__fiber_keys i },
      FIBER_SUCCESS)

/-- The function `fiber_getspecific` of `fiber.c`. -/
def fiber_getspecific (g : Registry) (key : Nat) : Ptr :=
  if key ≥ FIBER_KEYS_MAX ∨ key < 0 then NULL
  else g.__fiber_keys key

/-- The function `fiber_key_delete` of `fiber.c`. -/
def fiber_key_delete (g : Registry) (key : Nat) : Registry × RetCode :=
  if key ≥ FIBER_KEYS_MAX ∨ key < 0 then (g, FIBER_ERROR)
  else
    ({ g with __fiber_keys := fun i => if i = key then NULL else g.__fiber_keys i },
      FIBER_SUCCESS)

/-- The registry as the program starts: `__fiber_keys` zero-filled, the counter `0`. -/
def Registry.zero : Registry :=
  { __fiber_keys := fun _ => NULL, __fiber_key_count := 0 }

/-! ## Runs of the protocol -/

/-- The fields `fiber_create_no_sched` writes (lines 83-89 of `fiber.c`) into the zeroed
object: state `READY`, detach state `NONE`, empty slot, null result, `id` one. -/
def Fiber.created (run_function param node : Ptr) : Fiber :=
  { state := FIBER_STATE_READY, run_function := run_function, param := param, id := 1,
    result := NULL, mpsc_fifo_node := node, detach_state := FIBER_DETACH_NONE,
    join_info := NULL }

/-- A world of newly created fibers: nothing scheduled, no slot ever used. -/
def World.init : World :=
  { heap := fun p => Fiber.created 0 0 p, current_fiber := 1, ready := [], trace := [] }

/-- Every fiber is as `fiber_create_no_sched` leaves it: detach state `NONE`, empty slot,
null result. -/
def Fresh (w : World) : Prop :=
  ∀ p, (w.heap p).detach_state = FIBER_DETACH_NONE ∧ (w.heap p).join_info = NULL ∧
    (w.heap p).result = NULL

/-- Where a call stands: the next atomic step it takes. Every read or write of a field of a
fiber, every exchange and every call of the scheduler is a step of its own, so that other
fibers can run between a test of `detach_state` and the exchange after it, and between an
exchange and the `set_and_wait` or `clear_or_wait` after it. The numbers are the lines of
`fiber.c`. `result` is the cell behind the out-parameter (`none` for a null one). -/
inductive Pc
  /-- Line 22 of `fiber_mark_completed`: the store of the result. -/
  | mc_store (the_fiber : Ptr) (result : Ptr)
  /-- Line 24: the test of `detach_state`. -/
  | mc_load (the_fiber : Ptr)
  /-- Lines 25-27 and 31: the exchange and the tests of `old_state`. -/
  | mc_exchange (the_fiber : Ptr)
  /-- Lines 29-30: `set_and_wait`. -/
  | mc_set_and_wait (the_fiber : Ptr)
  /-- Parked inside `set_and_wait`; the next step is the finisher running again. -/
  | mc_parked (the_fiber : Ptr)
  /-- Lines 33-34: `clear_or_wait`; the step is repeated while the slot is empty. -/
  | mc_clear_or_wait (the_fiber : Ptr)
  /-- Line 35. -/
  | mc_copy_result (the_fiber : Ptr) (to_schedule : Ptr)
  /-- Line 36. -/
  | mc_set_ready (the_fiber : Ptr) (to_schedule : Ptr)
  /-- Line 37. -/
  | mc_schedule (the_fiber : Ptr) (to_schedule : Ptr)
  /-- Line 41. -/
  | mc_done (the_fiber : Ptr)
  /-- Lines 136-142 of `fiber_join`: `assert`, `*result = NULL`, the test of
  `detach_state`. -/
  | join_entry (f : Ptr) (result : Option Ptr)
  /-- Lines 144-146, 155 and 164-166: the exchange and the tests of `old_state`. -/
  | join_exchange (f : Ptr) (result : Option Ptr)
  /-- Lines 148-150: `set_and_wait`. -/
  | join_set_and_wait (f : Ptr) (result : Option Ptr)
  /-- Parked inside `set_and_wait`; the next step is the joiner running again. -/
  | join_parked (current_fiber : Ptr) (result : Option Ptr)
  /-- Lines 151-153. -/
  | join_read_own_result (current_fiber : Ptr) (result : Option Ptr)
  /-- Lines 154 and 169. -/
  | join_clear_own_result (current_fiber : Ptr) (result : Option Ptr)
  /-- Lines 157-159. -/
  | join_read_result (f : Ptr) (result : Option Ptr)
  /-- Lines 160-161: `clear_or_wait`; the step is repeated while the slot is empty. -/
  | join_clear_or_wait (f : Ptr) (result : Option Ptr)
  /-- Line 162. -/
  | join_set_ready (to_schedule : Ptr) (result : Option Ptr)
  /-- Lines 163 and 169. -/
  | join_schedule (to_schedule : Ptr) (result : Option Ptr)
  /-- Lines 173-179 of `fiber_tryjoin`: `assert`, `*result = NULL`, the first test. -/
  | tryjoin_entry (f : Ptr) (result : Option Ptr)
  /-- Line 181: the second test of `detach_state`. -/
  | tryjoin_load (f : Ptr) (result : Option Ptr)
  /-- Lines 187-189 and 202: the exchange and the test of `old_state`. -/
  | tryjoin_exchange (f : Ptr) (result : Option Ptr)
  /-- Lines 191-193. -/
  | tryjoin_read_result (f : Ptr) (result : Option Ptr)
  /-- Lines 194-195: `clear_or_wait`; the step is repeated while the slot is empty. -/
  | tryjoin_clear_or_wait (f : Ptr) (result : Option Ptr)
  /-- Line 196. -/
  | tryjoin_set_ready (to_schedule : Ptr) (result : Option Ptr)
  /-- Lines 197-198. -/
  | tryjoin_schedule (to_schedule : Ptr) (result : Option Ptr)
  /-- Lines 211-213 of `fiber_detach`: the null test. -/
  | detach_entry (f : Ptr)
  /-- Lines 214-217 and 224-227: the exchange and the tests of `old_state`. -/
  | detach_exchange (f : Ptr)
  /-- Lines 220-221: `clear_or_wait`; the step is repeated while the slot is empty. -/
  | detach_clear_or_wait (f : Ptr)
  /-- Line 222. -/
  | detach_set_ready (to_schedule : Ptr)
  /-- Lines 223 and 227. -/
  | detach_schedule (to_schedule : Ptr)
  /-- The call of `fiber_mark_completed` has returned. -/
  | completed
  /-- The call has returned `code`, with `result` behind the out-parameter. -/
  | returned (result : Option Ptr) (code : RetCode)
  /-- The call died in `assert`. -/
  | aborted (result : Option Ptr)
  deriving DecidableEq, Repr

/-- One atomic step of the call that fiber `c` is in: the world and the place of the call
afterwards. A call that has ended stays where it is. -/
def Pc.step (w : World) (c : Ptr) (pc : Pc) : World × Pc :=
  let w := w.switchTo c
  match pc with
  | Pc.mc_store the_fiber result =>
    (w.update the_fiber (fun fb => { fb with result := result }), Pc.mc_load the_fiber)
  | Pc.mc_load the_fiber =>
    if (w.heap the_fiber).detach_state ≠ FIBER_DETACH_DETACHED then (w, Pc.mc_exchange the_fiber)
    else (w, Pc.mc_done the_fiber)
  | Pc.mc_exchange the_fiber =>
    let old_state := (w.heap the_fiber).detach_state
    let w := w.update the_fiber
      (fun fb => { fb with detach_state := FIBER_DETACH_WAIT_FOR_JOINER })
    if old_state = FIBER_DETACH_NONE then (w, Pc.mc_set_and_wait the_fiber)
    else if old_state = FIBER_DETACH_WAIT_TO_JOIN then (w, Pc.mc_clear_or_wait the_fiber)
    else (w, Pc.mc_done the_fiber)
  | Pc.mc_set_and_wait the_fiber =>
    (fiber_manager_set_and_wait w the_fiber the_fiber, Pc.mc_parked the_fiber)
  | Pc.mc_parked the_fiber => (w, Pc.mc_done the_fiber)
  | Pc.mc_clear_or_wait the_fiber =>
    match fiber_manager_clear_or_wait w the_fiber with
    | (w, none) => (w, Pc.mc_clear_or_wait the_fiber)
    | (w, some to_schedule) => (w, Pc.mc_copy_result the_fiber to_schedule)
  | Pc.mc_copy_result the_fiber to_schedule =>
    (w.update to_schedule (fun fb => { fb with result := (w.heap the_fiber).result }),
      Pc.mc_set_ready the_fiber to_schedule)
  | Pc.mc_set_ready the_fiber to_schedule =>
    (w.update to_schedule (fun fb => { fb with state := FIBER_STATE_READY }),
      Pc.mc_schedule the_fiber to_schedule)
  | Pc.mc_schedule the_fiber to_schedule =>
    (fiber_manager_schedule w to_schedule, Pc.mc_done the_fiber)
  | Pc.mc_done the_fiber => (fiber_mark_completed_resume w the_fiber, Pc.completed)
  | Pc.join_entry f result =>
    if f = NULL then (w, Pc.aborted result)
    else
      let result := result.map (fun _ => NULL)
      if (w.heap f).detach_state = FIBER_DETACH_DETACHED then
        (w, Pc.returned result FIBER_ERROR)
      else (w, Pc.join_exchange f result)
  | Pc.join_exchange f result =>
    let old_state := (w.heap f).detach_state
    let w := w.update f (fun fb => { fb with detach_state := FIBER_DETACH_WAIT_TO_JOIN })
    if old_state = FIBER_DETACH_NONE then (w, Pc.join_set_and_wait f result)
    else if old_state = FIBER_DETACH_WAIT_FOR_JOINER then (w, Pc.join_read_result f result)
    else (w, Pc.returned result FIBER_ERROR)
  | Pc.join_set_and_wait f result =>
    let current_fiber := w.current_fiber
    (fiber_manager_set_and_wait w f current_fiber, Pc.join_parked current_fiber result)
  | Pc.join_parked current_fiber result => (w, Pc.join_read_own_result current_fiber result)
  | Pc.join_read_own_result current_fiber result =>
    (w, Pc.join_clear_own_result current_fiber
      (result.map (fun _ => (w.heap current_fiber).result)))
  | Pc.join_clear_own_result current_fiber result =>
    (w.update current_fiber (fun fb => { fb with result := NULL }),
      Pc.returned result FIBER_SUCCESS)
  | Pc.join_read_result f result =>
    (w, Pc.join_clear_or_wait f (result.map (fun _ => (w.heap f).result)))
  | Pc.join_clear_or_wait f result =>
    match fiber_manager_clear_or_wait w f with
    | (w, none) => (w, Pc.join_clear_or_wait f result)
    | (w, some to_schedule) => (w, Pc.join_set_ready to_schedule result)
  | Pc.join_set_ready to_schedule result =>
    (w.update to_schedule (fun fb => { fb with state := FIBER_STATE_READY }),
      Pc.join_schedule to_schedule result)
  | Pc.join_schedule to_schedule result =>
    (fiber_manager_schedule w to_schedule, Pc.returned result FIBER_SUCCESS)
  | Pc.tryjoin_entry f result =>
    if f = NULL then (w, Pc.aborted result)
    else
      let result := result.map (fun _ => NULL)
      if (w.heap f).detach_state = FIBER_DETACH_DETACHED then
        (w, Pc.returned result FIBER_ERROR)
      else (w, Pc.tryjoin_load f result)
  | Pc.tryjoin_load f result =>
    if (w.heap f).detach_state = FIBER_DETACH_WAIT_FOR_JOINER then
      (w, Pc.tryjoin_exchange f result)
    else (w, Pc.returned result FIBER_ERROR)
  | Pc.tryjoin_exchange f result =>
    let old_state := (w.heap f).detach_state
    let w := w.update f (fun fb => { fb with detach_state := FIBER_DETACH_WAIT_TO_JOIN })
    if old_state = FIBER_DETACH_WAIT_FOR_JOINER then (w, Pc.tryjoin_read_result f result)
    else (w, Pc.returned result FIBER_ERROR)
  | Pc.tryjoin_read_result f result =>
    (w, Pc.tryjoin_clear_or_wait f (result.map (fun _ => (w.heap f).result)))
  | Pc.tryjoin_clear_or_wait f result =>
    match fiber_manager_clear_or_wait w f with
    | (w, none) => (w, Pc.tryjoin_clear_or_wait f result)
    | (w, some to_schedule) => (w, Pc.tryjoin_set_ready to_schedule result)
  | Pc.tryjoin_set_ready to_schedule result =>
    (w.update to_schedule (fun fb => { fb with state := FIBER_STATE_READY }),
      Pc.tryjoin_schedule to_schedule result)
  | Pc.tryjoin_schedule to_schedule result =>
    (fiber_manager_schedule w to_schedule, Pc.returned result FIBER_SUCCESS)
  | Pc.detach_entry f =>
    if f = NULL then (w, Pc.returned none FIBER_ERROR)
    else (w, Pc.detach_exchange f)
  | Pc.detach_exchange f =>
    let old_state := (w.heap f).detach_state
    let w := w.update f (fun fb => { fb with detach_state := FIBER_DETACH_DETACHED })
    if old_state = FIBER_DETACH_WAIT_FOR_JOINER ∨ old_state = FIBER_DETACH_WAIT_TO_JOIN then
      (w, Pc.detach_clear_or_wait f)
    else if old_state = FIBER_DETACH_DETACHED then (w, Pc.returned none FIBER_ERROR)
    else (w, Pc.returned none FIBER_SUCCESS)
  | Pc.detach_clear_or_wait f =>
    match fiber_manager_clear_or_wait w f with
    | (w, none) => (w, Pc.detach_clear_or_wait f)
    | (w, some to_schedule) => (w, Pc.detach_set_ready to_schedule)
  | Pc.detach_set_ready to_schedule =>
    (w.update to_schedule (fun fb => { fb with state := FIBER_STATE_READY }),
      Pc.detach_schedule to_schedule)
  | Pc.detach_schedule to_schedule =>
    (fiber_manager_schedule w to_schedule, Pc.returned none FIBER_SUCCESS)
  | Pc.completed => (w, Pc.completed)
  | Pc.returned result code => (w, Pc.returned result code)
  | Pc.aborted result => (w, Pc.aborted result)

/-- The call takes no step of its own in `w`: it has ended, its caller is parked inside
`set_and_wait`, or it is inside `clear_or_wait` and the slot is empty. -/
def Pc.Stops (w : World) : Pc → Bool
  | Pc.mc_parked _ => true
  | Pc.join_parked _ _ => true
  | Pc.mc_clear_or_wait f => decide ((w.heap f).join_info = NULL)
  | Pc.join_clear_or_wait f _ => decide ((w.heap f).join_info = NULL)
  | Pc.tryjoin_clear_or_wait f _ => decide ((w.heap f).join_info = NULL)
  | Pc.detach_clear_or_wait f => decide ((w.heap f).join_info = NULL)
  | Pc.completed => true
  | Pc.returned _ _ => true
  | Pc.aborted _ => true
  | _ => false

/-- The call of fiber `c` runs on with no step of another fiber in between, for at most
`fuel` steps, until it stops. No call takes more than eight steps to stop. -/
def Pc.runCall : Nat → World → Ptr → Pc → World × Pc
  | 0, w, _, pc => (w, pc)
  | fuel + 1, w, c, pc =>
    if pc.Stops w then (w, pc)
    else Pc.runCall fuel (Pc.step w c pc).1 c (Pc.step w c pc).2

/-- Exactly `n` steps of the call of fiber `c`, one after the other. -/
def Pc.iterate : Nat → World → Ptr → Pc → World × Pc
  | 0, w, _, pc => (w, pc)
  | n + 1, w, c, pc => Pc.iterate n (Pc.step w c pc).1 c (Pc.step w c pc).2

/-- What a call that stands at `pc` has produced in the words of the whole-call functions:
the out-parameter and how the call ended or where it is held. -/
def Pc.outcome : Pc → Option Ptr × Outcome RetCode
  | Pc.returned result code => (result, Outcome.returned code)
  | Pc.aborted result => (result, Outcome.aborted)
  | Pc.join_parked _ result => (result, Outcome.suspended)
  | Pc.join_clear_or_wait _ result => (result, Outcome.waiting)
  | Pc.tryjoin_clear_or_wait _ result => (result, Outcome.waiting)
  | Pc.detach_clear_or_wait _ => (none, Outcome.waiting)
  | _ => (none, Outcome.suspended)

/-- A run from `w` to a later world: atomic steps of calls, each by any fiber from a place
`allowed` admits. Every interleaving of the steps of the calls in progress is such a run
(a run may also step from a place no call stands at, so what holds after every run holds
after every interleaving). -/
inductive Steps (allowed : Pc → Prop) : World → World → Prop
  | refl (w : World) : Steps allowed w w
  | step {w w1 : World} (c : Ptr) (pc : Pc) (hrun : Steps allowed w w1) (hpc : allowed pc) :
      Steps allowed w (Pc.step w1 c pc).1

/-- The world is reached from newly created fibers by atomic steps of calls. -/
def Reachable (w : World) : Prop :=
  ∃ w0, Fresh w0 ∧ Steps (fun _ => True) w0 w

/-- The detach state is one of the four protocol values. -/
def DetachValid (d : Int) : Prop :=
  d = FIBER_DETACH_NONE ∨ d = FIBER_DETACH_WAIT_FOR_JOINER ∨ d = FIBER_DETACH_WAIT_TO_JOIN ∨
    d = FIBER_DETACH_DETACHED

/-- The joiner-first run on `World.init`: fiber `2` calls `fiber_join` on fiber `1` and is
parked. -/
def joinerFirst_joined : World := (fiber_join (World.init.switchTo 2) 1 (some 0)).1

/-- The joiner-first run, continued: fiber `1` finishes with result `7` and wakes fiber
`2`. -/
def joinerFirst_completed : World :=
  (fiber_mark_completed (joinerFirst_joined.switchTo 1) 1 7).1

/-- The joiner-first run, continued: the join of fiber `2` runs on and returns. -/
def joinerFirst_resumed : World :=
  (fiber_join_resume (joinerFirst_completed.switchTo 2) 2 (some 0)).1

/-- The finisher-first run on `World.init`: fiber `1` finishes with result `7` and is
parked until a joiner arrives. -/
def finisherFirst_completed : World := (fiber_mark_completed (World.init.switchTo 1) 1 7).1

/-- A registry in which only key `5` holds a value, `77`. -/
def Registry.oneUsed : Registry := (fiber_setspecific Registry.zero 5 77).1

/-! ## Creation (`fiber.c`, lines 69-106) -/

/-- The value of `ENOMEM` in `errno.h`. -/
abbrev ENOMEM : Int := 12

/-- The object `calloc(1, sizeof(fiber_t))` hands out: every field zero. -/
def Fiber.zeroed : Fiber :=
  { state := 0, run_function := 0, param := 0, id := 0, result := 0, mpsc_fifo_node := 0,
    detach_state := 0, join_info := 0 }

/-- The function `fiber_create_no_sched` of `fiber.c`. `ret` and `node` are what the two
calls of `calloc` return (`NULL` when the allocation fails); `fiber_context_init` stands for
the function of that name in `fiber_context.c`, which is not among the sources, and gives its
status for the stack size. The value holds the world, the returned pointer and what is
written to `errno` (`none` when it is not written). An object that is freed again is not
part of the world. -/
def fiber_create_no_sched (w : World) (ret node : Ptr) (fiber_context_init : Nat → RetCode)
    (stack_size : Nat) (run_function param : Ptr) : World × Ptr × Option Int :=
  if ret = NULL then (w, NULL, some ENOMEM)
  else
    let w1 := w.update ret (fun _ => Fiber.zeroed)
    if node = NULL then (w, NULL, some ENOMEM)
    else
      let w1 := w1.update ret (fun fb => { fb with mpsc_fifo_node := node })
      let w1 := w1.update ret (fun fb => { fb with run_function := run_function })
      let w1 := w1.update ret (fun fb => { fb with param := param })
      let w1 := w1.update ret (fun fb => { fb with state := FIBER_STATE_READY })
      let w1 := w1.update ret (fun fb => { fb with detach_state := FIBER_DETACH_NONE })
      let w1 := w1.update ret (fun fb => { fb with join_info := NULL })
      let w1 := w1.update ret (fun fb => { fb with result := NULL })
      let w1 := w1.update ret (fun fb => { fb with id := (fb.id + 1) % 2 ^ 64 })
      if FIBER_SUCCESS ≠ fiber_context_init stack_size then (w, NULL, none)
      else (w1, ret, none)

/-- The function `fiber_create` of `fiber.c`. -/
def fiber_create (w : World) (ret node : Ptr) (fiber_context_init : Nat → RetCode)
    (stack_size : Nat) (run_function param : Ptr) : World × Ptr × Option Int :=
  let r := fiber_create_no_sched w ret node fiber_context_init stack_size run_function param
  if r.2.1 ≠ NULL then (fiber_manager_schedule r.1 r.2.1, r.2.1, r.2.2)
  else r

/-! ## Try-join with its two reads taken apart -/

/-- The function `fiber_tryjoin` with other fibers running between its reads of
`detach_state` (lines 177 and 181) and its `atomic_exchange` (line 187): `env` is what they
do to the world in between. With `env` the identity this is `fiber_tryjoin`. -/
def fiber_tryjoin_interleaved (w : World) (env : World → World) (f : Ptr)
    (result : Option Ptr) : World × Option Ptr × Outcome RetCode :=
  if f = NULL then (w, result, Outcome.aborted)
  else
    let result := result.map (fun _ => NULL)
    if (w.heap f).detach_state = FIBER_DETACH_DETACHED then
      (w, result, Outcome.returned FIBER_ERROR)
    else if (w.heap f).detach_state = FIBER_DETACH_WAIT_FOR_JOINER then
      fiber_tryjoin_exchange (env w) f result
    else
      (w, result, Outcome.returned FIBER_ERROR)

/-- The state update of try-join as the spec words it (section 4.3, row "`try_join`, state
is `WaitForJoiner`"): "compare-and-exchange to `WaitToJoin`, retry semantics: if it fails
(state changed concurrently) report error, no blocking ever; same wake-and-reschedule as
above on success". The detach state is written only when it is `WAIT_FOR_JOINER`. -/
def spec_tryjoin_compare_exchange (w : World) (f : Ptr) (result : Option Ptr) :
    World × Option Ptr × Outcome RetCode :=
  if (w.heap f).detach_state = FIBER_DETACH_WAIT_FOR_JOINER then
    let w := w.update f (fun fb => { fb with detach_state := FIBER_DETACH_WAIT_TO_JOIN })
    let result := result.map (fun _ => (w.heap f).result)
    match fiber_manager_clear_or_wait w f with
    | (w, none) => (w, result, Outcome.waiting)
    | (w, some to_schedule) =>
      let w := w.update to_schedule (fun fb => { fb with state := FIBER_STATE_READY })
      let w := fiber_manager_schedule w to_schedule
      (w, result, Outcome.returned FIBER_SUCCESS)
  else
    (w, result, Outcome.returned FIBER_ERROR)

/-- The finisher-first run, continued: after fiber `2` has read `WAIT_FOR_JOINER` in its
`fiber_tryjoin` on fiber `1`, fiber `3` detaches fiber `1`. -/
def finisherFirst_detached : World := (fiber_detach (finisherFirst_completed.switchTo 3) 1).1

/-- The place of a detach state in the order `NONE` < `WAIT_FOR_JOINER`, `WAIT_TO_JOIN` <
`DETACHED` (`0` for a value that is none of the four). -/
def detachRank (d : Int) : Nat :=
  if d = FIBER_DETACH_NONE then 0
  else if d = FIBER_DETACH_WAIT_FOR_JOINER then 1
  else if d = FIBER_DETACH_WAIT_TO_JOIN then 1
  else if d = FIBER_DETACH_DETACHED then 2
  else 0

/-- What other fibers do between the reads and the exchange of the `fiber_tryjoin` that
fiber `2` makes in the run for C17: fiber `3` detaches fiber `1`, then fiber `2` runs
again. -/
def detachedMeanwhile (w : World) : World := (fiber_detach (w.switchTo 3) 1).1.switchTo 2

/-- The exchange on `detach_state` the step from `pc` makes, if it makes one: the fiber and
the value written (lines 26, 145, 187 and 215 of `fiber.c`). -/
def Pc.exchanges : Pc → Option (Ptr × Int)
  | Pc.mc_exchange the_fiber => some (the_fiber, FIBER_DETACH_WAIT_FOR_JOINER)
  | Pc.join_exchange f _ => some (f, FIBER_DETACH_WAIT_TO_JOIN)
  | Pc.tryjoin_exchange f _ => some (f, FIBER_DETACH_WAIT_TO_JOIN)
  | Pc.detach_exchange f => some (f, FIBER_DETACH_DETACHED)
  | _ => none

/-- The run for C6: on `World.init` fiber `2` calls `fiber_join` on fiber `1` with `9`
behind the out-parameter and takes the first step, the test of `detach_state`. -/
def staleJoin_tested : World × Pc := Pc.step World.init 2 (Pc.join_entry 1 (some 9))

/-- The run for C6, continued: before fiber `2` takes another step, fiber `3` calls
`fiber_detach` on fiber `1` and its call runs to the end. -/
def staleJoin_detached : World × Pc := Pc.runCall 12 staleJoin_tested.1 3 (Pc.detach_entry 1)

/-- The run for C6, continued: fiber `2` takes its next step, the exchange. -/
def staleJoin_exchanged : World × Pc := Pc.step staleJoin_detached.1 2 staleJoin_tested.2

/-- The run for C15: on `World.init` fiber `1` finishes with result `7` and takes the first
two steps of `fiber_mark_completed`, the store and the test of `detach_state`. -/
def staleCompletion_tested : World × Pc := Pc.iterate 2 World.init 1 (Pc.mc_store 1 7)

/-- The run for C15, continued: before fiber `1` takes another step, fiber `3` calls
`fiber_detach` on fiber `1` and its call runs to the end. -/
def staleCompletion_detached : World × Pc :=
  Pc.runCall 12 staleCompletion_tested.1 3 (Pc.detach_entry 1)

/-- The run for C15, continued: fiber `1` takes its next step, the exchange. -/
def staleCompletion_exchanged : World × Pc :=
  Pc.step staleCompletion_detached.1 1 staleCompletion_tested.2

/-! ## Reading the heap after a write -/

@[simp] theorem World.update_heap_same (w : World) (p : Ptr) (g : Fiber → Fiber) :
    (w.update p g).heap p = g (w.heap p) := by
  simp [World.update]

theorem World.update_heap_other (w : World) (p q : Ptr) (g : Fiber → Fiber) (h : q ≠ p) :
    (w.update p g).heap q = w.heap q := by
  simp [World.update, h]

@[simp] theorem World.update_ready (w : World) (p : Ptr) (g : Fiber → Fiber) :
    (w.update p g).ready = w.ready := rfl

@[simp] theorem World.update_trace (w : World) (p : Ptr) (g : Fiber → Fiber) :
    (w.update p g).trace = w.trace := rfl

@[simp] theorem World.update_current_fiber (w : World) (p : Ptr) (g : Fiber → Fiber) :
    (w.update p g).current_fiber = w.current_fiber := rfl

@[simp] theorem World.switchTo_heap (w : World) (c : Ptr) : (w.switchTo c).heap = w.heap := rfl

@[simp] theorem World.switchTo_ready (w : World) (c : Ptr) : (w.switchTo c).ready = w.ready := rfl

@[simp] theorem World.switchTo_trace (w : World) (c : Ptr) : (w.switchTo c).trace = w.trace := rfl

@[simp] theorem World.switchTo_current_fiber (w : World) (c : Ptr) :
    (w.switchTo c).current_fiber = c := rfl

/-! ## C1: one join against one completion, in both orders -/

/-- C1. From a freshly created `F` (detach state `NONE`, empty slot, null result), for every
result `r`: (a) when `fiber_mark_completed(F, r)` runs first it publishes `F` and suspends,
and the `fiber_join(F)` that follows returns `FIBER_SUCCESS` with `r` in its out-parameter;
(b) when `fiber_join(F)` runs first it publishes the caller `J` and suspends,
`fiber_mark_completed(F, r)` then returns, and the resumed join returns `FIBER_SUCCESS` with
`r` in its out-parameter. In both orders the slot history grows by exactly one publish and
one consume of the same party, the slot ends empty and that party is scheduled once. -/
theorem fiber_join_rendezvous_both_orders (w : World) (F J r x : Ptr)
    (hF : F ≠ NULL) (hJ : J ≠ NULL)
    (hds : (w.heap F).detach_state = FIBER_DETACH_NONE) :
    (let m := fiber_mark_completed (w.switchTo F) F r
     let j := fiber_join (m.1.switchTo J) F (some x)
     m.2 = Outcome.suspended ∧
     m.1.trace = w.trace ++ [Event.publish F F] ∧
     j.2.2 = Outcome.returned FIBER_SUCCESS ∧
     j.2.1 = some r ∧
     j.1.trace = w.trace ++ [Event.publish F F, Event.consume F F] ∧
     j.1.ready = w.ready ++ [F] ∧
     (j.1.heap F).join_info = NULL ∧
     (j.1.heap F).state = FIBER_STATE_READY ∧
     ((fiber_mark_completed_resume j.1 F).heap F).state = FIBER_STATE_DONE) ∧
    (let j := fiber_join (w.switchTo J) F (some x)
     let m := fiber_mark_completed (j.1.switchTo F) F r
     let k := fiber_join_resume (m.1.switchTo J) J j.2.1
     j.2.2 = Outcome.suspended ∧
     j.1.trace = w.trace ++ [Event.publish F J] ∧
     m.2 = Outcome.returned () ∧
     (m.1.heap F).state = FIBER_STATE_DONE ∧
     k.2.2 = Outcome.returned FIBER_SUCCESS ∧
     k.2.1 = some r ∧
     k.1.trace = w.trace ++ [Event.publish F J, Event.consume F J] ∧
     k.1.ready = w.ready ++ [J] ∧
     (k.1.heap F).join_info = NULL) := by
  constructor
  · simp [fiber_mark_completed, fiber_join, fiber_manager_set_and_wait,
      fiber_manager_clear_or_wait, fiber_manager_schedule, fiber_mark_completed_resume,
      hds, hF]
  · by_cases hJF : J = F
    · subst hJF
      simp [fiber_mark_completed, fiber_join, fiber_join_resume, fiber_manager_set_and_wait,
        fiber_manager_clear_or_wait, fiber_manager_schedule, fiber_mark_completed_resume,
        hds, hF]
    · have hFJ : F ≠ J := fun h => hJF h.symm
      simp [fiber_mark_completed, fiber_join, fiber_join_resume, fiber_manager_set_and_wait,
        fiber_manager_clear_or_wait, fiber_manager_schedule, fiber_mark_completed_resume,
        hds, hF, hJ, hJF, hFJ, World.update_heap_other]


/-- A run for C1 on `World.init`: fiber `1` finishes with result `7`, then fiber `2` joins
it and reads `7`. -/
theorem fiber_join_rendezvous_both_orders_witness :
    (1 : Ptr) ≠ NULL ∧ (2 : Ptr) ≠ NULL ∧
    (World.init.heap 1).detach_state = FIBER_DETACH_NONE ∧
    (fiber_join ((fiber_mark_completed (World.init.switchTo 1) 1 7).1.switchTo 2) 1
      (some 9)).2.1 = some 7 := by
  have h := fiber_join_rendezvous_both_orders World.init 1 2 7 9 (by decide) (by decide) rfl
  exact ⟨by decide, by decide, rfl, h.1.2.2.2.1⟩


/-! ## What one call does to the detach state and the slot -/

theorem World.update_heap (w : World) (p q : Ptr) (g : Fiber → Fiber) :
    (w.update p g).heap q = if q = p then g (w.heap q) else w.heap q := rfl

theorem World.update_detach_state (w : World) (p q : Ptr) (g : Fiber → Fiber) :
    ((w.update p g).heap q).detach_state =
      if q = p then (g (w.heap q)).detach_state else (w.heap q).detach_state := by
  rw [World.update_heap]; split_ifs <;> rfl

theorem World.update_join_info (w : World) (p q : Ptr) (g : Fiber → Fiber) :
    ((w.update p g).heap q).join_info =
      if q = p then (g (w.heap q)).join_info else (w.heap q).join_info := by
  rw [World.update_heap]; split_ifs <;> rfl

theorem fiber_mark_completed_target (w : World) (g r : Ptr) :
    ((fiber_mark_completed w g r).1.heap g).detach_state =
      (if (w.heap g).detach_state = FIBER_DETACH_DETACHED then FIBER_DETACH_DETACHED
       else FIBER_DETACH_WAIT_FOR_JOINER) ∧
    ((fiber_mark_completed w g r).1.heap g).join_info =
      (if (w.heap g).detach_state = FIBER_DETACH_DETACHED then (w.heap g).join_info
       else if (w.heap g).detach_state = FIBER_DETACH_NONE then g
       else if (w.heap g).detach_state = FIBER_DETACH_WAIT_TO_JOIN then NULL
       else (w.heap g).join_info) := by
  by_cases h3 : (w.heap g).detach_state = FIBER_DETACH_DETACHED
  · simp [fiber_mark_completed, fiber_mark_completed_resume, h3, World.update_detach_state,
      World.update_join_info]
  by_cases h0 : (w.heap g).detach_state = FIBER_DETACH_NONE
  · simp [fiber_mark_completed, fiber_manager_set_and_wait, h0, World.update_detach_state,
      World.update_join_info]
  by_cases h2 : (w.heap g).detach_state = FIBER_DETACH_WAIT_TO_JOIN
  · by_cases hs : (w.heap g).join_info = NULL
    · simp [fiber_mark_completed, fiber_manager_clear_or_wait, h2, hs,
        World.update_detach_state, World.update_join_info]
    · simp [fiber_mark_completed, fiber_manager_clear_or_wait, fiber_manager_schedule,
        fiber_mark_completed_resume, h2, hs, World.update_detach_state,
        World.update_join_info]
  · simp [fiber_mark_completed, fiber_mark_completed_resume, h3, h0, h2,
      World.update_detach_state, World.update_join_info]

theorem fiber_join_target (w : World) (g : Ptr) (res : Option Ptr) (hg : g ≠ NULL) :
    ((fiber_join w g res).1.heap g).detach_state =
      (if (w.heap g).detach_state = FIBER_DETACH_DETACHED then FIBER_DETACH_DETACHED
       else FIBER_DETACH_WAIT_TO_JOIN) ∧
    ((fiber_join w g res).1.heap g).join_info =
      (if (w.heap g).detach_state = FIBER_DETACH_DETACHED then (w.heap g).join_info
       else if (w.heap g).detach_state = FIBER_DETACH_NONE then w.current_fiber
       else if (w.heap g).detach_state = FIBER_DETACH_WAIT_FOR_JOINER then NULL
       else (w.heap g).join_info) ∧
    (fiber_join w g res).2.2 =
      (if (w.heap g).detach_state = FIBER_DETACH_DETACHED then Outcome.returned FIBER_ERROR
       else if (w.heap g).detach_state = FIBER_DETACH_NONE then Outcome.suspended
       else if (w.heap g).detach_state = FIBER_DETACH_WAIT_FOR_JOINER then
         (if (w.heap g).join_info = NULL then Outcome.waiting
          else Outcome.returned FIBER_SUCCESS)
       else Outcome.returned FIBER_ERROR) := by
  by_cases h3 : (w.heap g).detach_state = FIBER_DETACH_DETACHED
  · simp [fiber_join, hg, h3]
  by_cases h0 : (w.heap g).detach_state = FIBER_DETACH_NONE
  · simp [fiber_join, fiber_manager_set_and_wait, hg, h0, World.update_detach_state,
      World.update_join_info]
  by_cases h1 : (w.heap g).detach_state = FIBER_DETACH_WAIT_FOR_JOINER
  · by_cases hs : (w.heap g).join_info = NULL
    · simp [fiber_join, fiber_manager_clear_or_wait, hg, h1, hs,
        World.update_detach_state, World.update_join_info]
    · simp [fiber_join, fiber_manager_clear_or_wait, fiber_manager_schedule, hg, h1, hs,
        World.update_detach_state, World.update_join_info]
  · simp [fiber_join, hg, h3, h0, h1, World.update_detach_state, World.update_join_info]

theorem fiber_tryjoin_target (w : World) (g : Ptr) (res : Option Ptr) (hg : g ≠ NULL) :
    ((fiber_tryjoin w g res).1.heap g).detach_state =
      (if (w.heap g).detach_state = FIBER_DETACH_WAIT_FOR_JOINER then FIBER_DETACH_WAIT_TO_JOIN
       else (w.heap g).detach_state) ∧
    ((fiber_tryjoin w g res).1.heap g).join_info =
      (if (w.heap g).detach_state = FIBER_DETACH_WAIT_FOR_JOINER then NULL
       else (w.heap g).join_info) ∧
    (fiber_tryjoin w g res).2.2 =
      (if (w.heap g).detach_state = FIBER_DETACH_WAIT_FOR_JOINER then
         (if (w.heap g).join_info = NULL then Outcome.waiting
          else Outcome.returned FIBER_SUCCESS)
       else Outcome.returned FIBER_ERROR) := by
  by_cases h1 : (w.heap g).detach_state = FIBER_DETACH_WAIT_FOR_JOINER
  · by_cases hs : (w.heap g).join_info = NULL
    · simp [fiber_tryjoin, fiber_tryjoin_exchange, fiber_manager_clear_or_wait, hg, h1, hs,
        World.update_detach_state, World.update_join_info]
    · simp [fiber_tryjoin, fiber_tryjoin_exchange, fiber_manager_clear_or_wait,
        fiber_manager_schedule, hg, h1, hs, World.update_detach_state,
        World.update_join_info]
  · by_cases h3 : (w.heap g).detach_state = FIBER_DETACH_DETACHED
    · simp [fiber_tryjoin, hg, h3]
    · simp [fiber_tryjoin, hg, h1, h3]

theorem fiber_detach_target (w : World) (g : Ptr) (hg : g ≠ NULL) :
    ((fiber_detach w g).1.heap g).detach_state = FIBER_DETACH_DETACHED ∧
    ((fiber_detach w g).1.heap g).join_info =
      (if (w.heap g).detach_state = FIBER_DETACH_WAIT_FOR_JOINER ∨
          (w.heap g).detach_state = FIBER_DETACH_WAIT_TO_JOIN then NULL
       else (w.heap g).join_info) ∧
    (fiber_detach w g).2 =
      (if (w.heap g).detach_state = FIBER_DETACH_WAIT_FOR_JOINER ∨
          (w.heap g).detach_state = FIBER_DETACH_WAIT_TO_JOIN then
         (if (w.heap g).join_info = NULL then Outcome.waiting
          else Outcome.returned FIBER_SUCCESS)
       else if (w.heap g).detach_state = FIBER_DETACH_DETACHED then
         Outcome.returned FIBER_ERROR
       else Outcome.returned FIBER_SUCCESS) := by
  by_cases h12 : (w.heap g).detach_state = FIBER_DETACH_WAIT_FOR_JOINER ∨
      (w.heap g).detach_state = FIBER_DETACH_WAIT_TO_JOIN
  · by_cases hs : (w.heap g).join_info = NULL
    · simp [fiber_detach, fiber_manager_clear_or_wait, hg, h12, hs,
        World.update_detach_state, World.update_join_info]
    · simp [fiber_detach, fiber_manager_clear_or_wait, fiber_manager_schedule, hg, h12, hs,
        World.update_detach_state, World.update_join_info]
  · by_cases h3 : (w.heap g).detach_state = FIBER_DETACH_DETACHED
    · simp [fiber_detach, hg, h3, World.update_detach_state, World.update_join_info]
    · simp [fiber_detach, hg, h12, h3, World.update_detach_state, World.update_join_info]

theorem fiber_mark_completed_frame (w : World) (g q r : Ptr) (hq : q ≠ g) :
    ((fiber_mark_completed w g r).1.heap q).detach_state = (w.heap q).detach_state ∧
    ((fiber_mark_completed w g r).1.heap q).join_info = (w.heap q).join_info := by
  simp only [fiber_mark_completed, fiber_manager_set_and_wait, fiber_manager_clear_or_wait,
      fiber_manager_schedule, fiber_mark_completed_resume]
  split_ifs <;> simp [World.update_detach_state, World.update_join_info, hq]

theorem fiber_join_frame (w : World) (g q : Ptr) (res : Option Ptr) (hq : q ≠ g) :
    ((fiber_join w g res).1.heap q).detach_state = (w.heap q).detach_state ∧
    ((fiber_join w g res).1.heap q).join_info = (w.heap q).join_info := by
  simp only [fiber_join, fiber_manager_set_and_wait, fiber_manager_clear_or_wait,
      fiber_manager_schedule, fiber_mark_completed_resume]
  split_ifs <;> simp [World.update_detach_state, World.update_join_info, hq]

theorem fiber_tryjoin_frame (w : World) (g q : Ptr) (res : Option Ptr) (hq : q ≠ g) :
    ((fiber_tryjoin w g res).1.heap q).detach_state = (w.heap q).detach_state ∧
    ((fiber_tryjoin w g res).1.heap q).join_info = (w.heap q).join_info := by
  simp only [fiber_tryjoin, fiber_tryjoin_exchange, fiber_manager_set_and_wait, fiber_manager_clear_or_wait,
      fiber_manager_schedule, fiber_mark_completed_resume]
  split_ifs <;> simp [World.update_detach_state, World.update_join_info, hq]

theorem fiber_detach_frame (w : World) (g q : Ptr) (hq : q ≠ g) :
    ((fiber_detach w g).1.heap q).detach_state = (w.heap q).detach_state ∧
    ((fiber_detach w g).1.heap q).join_info = (w.heap q).join_info := by
  simp only [fiber_detach, fiber_manager_set_and_wait, fiber_manager_clear_or_wait,
      fiber_manager_schedule, fiber_mark_completed_resume]
  split_ifs <;> simp [World.update_detach_state, World.update_join_info, hq]

/-! ## Runs of atomic steps -/

theorem steps_trans {allowed : Pc → Prop} {w1 w2 w3 : World} (h1 : Steps allowed w1 w2)
    (h2 : Steps allowed w2 w3) : Steps allowed w1 w3 := by
  induction h2 with
  | refl => exact h1
  | step c pc _ hpc ih => exact Steps.step c pc ih hpc

theorem steps_iterate (n : Nat) (w : World) (c : Ptr) (pc : Pc) :
    Steps (fun _ => True) w (Pc.iterate n w c pc).1 := by
  induction n generalizing w pc with
  | zero => exact Steps.refl w
  | succ n ih => exact steps_trans (Steps.step c pc (Steps.refl w) trivial) (ih _ _)

theorem steps_runCall (n : Nat) (w : World) (c : Ptr) (pc : Pc) :
    Steps (fun _ => True) w (Pc.runCall n w c pc).1 := by
  induction n generalizing w pc with
  | zero => exact Steps.refl w
  | succ n ih =>
    unfold Pc.runCall
    split
    · exact Steps.refl w
    · exact steps_trans (Steps.step c pc (Steps.refl w) trivial) (ih _ _)

/-! ## A call that runs alone is the whole-call function -/

theorem runCall_fiber_mark_completed (w : World) (c f r : Ptr) :
    (Pc.runCall 12 w c (Pc.mc_store f r)).1 = (fiber_mark_completed (w.switchTo c) f r).1 ∧
    (Pc.runCall 12 w c (Pc.mc_store f r)).2 =
      (match (fiber_mark_completed (w.switchTo c) f r).2 with
        | Outcome.suspended => Pc.mc_parked f
        | Outcome.waiting => Pc.mc_clear_or_wait f
        | _ => Pc.completed) := by
  by_cases h3 : (w.heap f).detach_state = FIBER_DETACH_DETACHED
  · simp [Pc.runCall, Pc.step, Pc.Stops, fiber_mark_completed, h3]
    rfl
  by_cases h0 : (w.heap f).detach_state = FIBER_DETACH_NONE
  · simp [Pc.runCall, Pc.step, Pc.Stops, fiber_mark_completed, h0]
    rfl
  by_cases h2 : (w.heap f).detach_state = FIBER_DETACH_WAIT_TO_JOIN
  · by_cases hs : (w.heap f).join_info = NULL
    · simp [Pc.runCall, Pc.step, Pc.Stops, fiber_mark_completed, fiber_manager_clear_or_wait,
        h2, hs, World.update_heap]
      rfl
    · simp [Pc.runCall, Pc.step, Pc.Stops, fiber_mark_completed, fiber_manager_clear_or_wait,
        h2, hs, World.update_heap]
      rfl
  · simp [Pc.runCall, Pc.step, Pc.Stops, fiber_mark_completed, h3, h0, h2]
    rfl

theorem runCall_fiber_join (w : World) (c f : Ptr) (res : Option Ptr) :
    (Pc.runCall 12 w c (Pc.join_entry f res)).1 = (fiber_join (w.switchTo c) f res).1 ∧
    (Pc.runCall 12 w c (Pc.join_entry f res)).2.outcome =
      (fiber_join (w.switchTo c) f res).2 := by
  by_cases hf : f = NULL
  · simp [Pc.runCall, Pc.step, Pc.Stops, Pc.outcome, fiber_join, hf]
  by_cases h3 : (w.heap f).detach_state = FIBER_DETACH_DETACHED
  · simp [Pc.runCall, Pc.step, Pc.Stops, Pc.outcome, fiber_join, hf, h3]
  by_cases h0 : (w.heap f).detach_state = FIBER_DETACH_NONE
  · simp [Pc.runCall, Pc.step, Pc.Stops, Pc.outcome, fiber_join, hf, h0]
    rfl
  by_cases h1 : (w.heap f).detach_state = FIBER_DETACH_WAIT_FOR_JOINER
  · by_cases hs : (w.heap f).join_info = NULL
    · simp [Pc.runCall, Pc.step, Pc.Stops, Pc.outcome, fiber_join, fiber_manager_clear_or_wait,
        hf, h1, hs, World.update_heap]
      rfl
    · simp [Pc.runCall, Pc.step, Pc.Stops, Pc.outcome, fiber_join, fiber_manager_clear_or_wait,
        hf, h1, hs, World.update_heap]
      rfl
  · simp [Pc.runCall, Pc.step, Pc.Stops, Pc.outcome, fiber_join, hf, h3, h0, h1]
    rfl

theorem runCall_fiber_tryjoin (w : World) (c f : Ptr) (res : Option Ptr) :
    (Pc.runCall 12 w c (Pc.tryjoin_entry f res)).1 = (fiber_tryjoin (w.switchTo c) f res).1 ∧
    (Pc.runCall 12 w c (Pc.tryjoin_entry f res)).2.outcome =
      (fiber_tryjoin (w.switchTo c) f res).2 := by
  by_cases hf : f = NULL
  · simp [Pc.runCall, Pc.step, Pc.Stops, Pc.outcome, fiber_tryjoin, hf]
  by_cases h3 : (w.heap f).detach_state = FIBER_DETACH_DETACHED
  · simp [Pc.runCall, Pc.step, Pc.Stops, Pc.outcome, fiber_tryjoin, hf, h3]
  by_cases h1 : (w.heap f).detach_state = FIBER_DETACH_WAIT_FOR_JOINER
  · by_cases hs : (w.heap f).join_info = NULL
    · simp [Pc.runCall, Pc.step, Pc.Stops, Pc.outcome, fiber_tryjoin, fiber_tryjoin_exchange,
        fiber_manager_clear_or_wait, hf, h1, hs, World.update_heap]
      rfl
    · simp [Pc.runCall, Pc.step, Pc.Stops, Pc.outcome, fiber_tryjoin, fiber_tryjoin_exchange,
        fiber_manager_clear_or_wait, hf, h1, hs, World.update_heap]
      rfl
  · simp [Pc.runCall, Pc.step, Pc.Stops, Pc.outcome, fiber_tryjoin, hf, h3, h1]
    rfl

theorem runCall_fiber_detach (w : World) (c f : Ptr) :
    (Pc.runCall 12 w c (Pc.detach_entry f)).1 = (fiber_detach (w.switchTo c) f).1 ∧
    (Pc.runCall 12 w c (Pc.detach_entry f)).2.outcome.2 =
      (fiber_detach (w.switchTo c) f).2 := by
  by_cases hf : f = NULL
  · simp [Pc.runCall, Pc.step, Pc.Stops, Pc.outcome, fiber_detach, hf]
  by_cases h12 : (w.heap f).detach_state = FIBER_DETACH_WAIT_FOR_JOINER ∨
      (w.heap f).detach_state = FIBER_DETACH_WAIT_TO_JOIN
  · by_cases hs : (w.heap f).join_info = NULL
    · simp [Pc.runCall, Pc.step, Pc.Stops, Pc.outcome, fiber_detach,
        fiber_manager_clear_or_wait, hf, h12, hs, World.update_heap]
      rfl
    · simp [Pc.runCall, Pc.step, Pc.Stops, Pc.outcome, fiber_detach,
        fiber_manager_clear_or_wait, hf, h12, hs, World.update_heap]
      rfl
  · by_cases h3 : (w.heap f).detach_state = FIBER_DETACH_DETACHED
    · simp [Pc.runCall, Pc.step, Pc.Stops, Pc.outcome, fiber_detach, hf, h3]
      rfl
    · simp [Pc.runCall, Pc.step, Pc.Stops, Pc.outcome, fiber_detach, hf, h12, h3]
      rfl

/-! ## What one atomic step does to the detach state -/

theorem clear_or_wait_detach_state (w : World) (f q : Ptr) :
    ((fiber_manager_clear_or_wait w f).1.heap q).detach_state = (w.heap q).detach_state := by
  unfold fiber_manager_clear_or_wait
  by_cases hs : (w.heap f).join_info = NULL
  · simp [hs]
  · simp [hs, World.update_detach_state]

theorem step_clear_or_wait_world (w : World) (c f : Ptr) (res : Option Ptr) :
    (Pc.step w c (Pc.mc_clear_or_wait f)).1 = (fiber_manager_clear_or_wait (w.switchTo c) f).1 ∧
    (Pc.step w c (Pc.join_clear_or_wait f res)).1 =
      (fiber_manager_clear_or_wait (w.switchTo c) f).1 ∧
    (Pc.step w c (Pc.tryjoin_clear_or_wait f res)).1 =
      (fiber_manager_clear_or_wait (w.switchTo c) f).1 ∧
    (Pc.step w c (Pc.detach_clear_or_wait f)).1 =
      (fiber_manager_clear_or_wait (w.switchTo c) f).1 := by
  rcases h : fiber_manager_clear_or_wait (w.switchTo c) f with ⟨w1, _ | t⟩ <;>
    simp [Pc.step, h]

theorem step_detach_state (w : World) (c q : Ptr) (pc : Pc) :
    ((Pc.step w c pc).1.heap q).detach_state =
      match pc.exchanges with
      | some (f, v) => if q = f then v else (w.heap q).detach_state
      | none => (w.heap q).detach_state := by
  cases pc with
  | mc_clear_or_wait f =>
    rw [(step_clear_or_wait_world w c f none).1, clear_or_wait_detach_state]
    rfl
  | join_clear_or_wait f res =>
    rw [(step_clear_or_wait_world w c f res).2.1, clear_or_wait_detach_state]
    rfl
  | tryjoin_clear_or_wait f res =>
    rw [(step_clear_or_wait_world w c f res).2.2.1, clear_or_wait_detach_state]
    rfl
  | detach_clear_or_wait f =>
    rw [(step_clear_or_wait_world w c f none).2.2.2, clear_or_wait_detach_state]
    rfl
  | _ =>
    simp only [Pc.step, Pc.exchanges]
    first
      | rfl
      | (split_ifs <;> simp_all [World.update_detach_state, fiber_manager_set_and_wait,
          fiber_manager_schedule, fiber_mark_completed_resume])
      | simp [World.update_detach_state, fiber_manager_set_and_wait,
          fiber_manager_schedule, fiber_mark_completed_resume]

/-! ## C2: joins after a committed join -/

theorem fresh_init : Fresh World.init := by
  intro p
  exact ⟨rfl, rfl, rfl⟩

/-- C5. Let a join on `F` be pending: detach state `WAIT_TO_JOIN`, the joiner `J` (another
fiber) in the slot of `F`, the result field of `J` null. Then `fiber_detach(F)` returns
`FIBER_SUCCESS`, leaves the detach state `DETACHED`, takes `J` out of the slot, sets the
state of `J` to `READY` and schedules `J` once. The join of `J` then runs on and returns
with `NULL` in its out-parameter, whether it runs before or after a later
`fiber_mark_completed(F, r)`; that completion returns without suspending and leaves `J`,
the ready list and the slot history as they were. -/
theorem fiber_detach_wakes_pending_joiner (w : World) (F J c r x : Ptr)
    (hF : F ≠ NULL) (hJ : J ≠ NULL) (hJF : J ≠ F)
    (hds : (w.heap F).detach_state = FIBER_DETACH_WAIT_TO_JOIN)
    (hslot : (w.heap F).join_info = J) (hres : (w.heap J).result = NULL) :
    (fiber_detach (w.switchTo c) F).2 = Outcome.returned FIBER_SUCCESS ∧
    ((fiber_detach (w.switchTo c) F).1.heap F).detach_state = FIBER_DETACH_DETACHED ∧
    ((fiber_detach (w.switchTo c) F).1.heap F).join_info = NULL ∧
    (fiber_detach (w.switchTo c) F).1.trace = w.trace ++ [Event.consume F J] ∧
    ((fiber_detach (w.switchTo c) F).1.heap J).state = FIBER_STATE_READY ∧
    (fiber_detach (w.switchTo c) F).1.ready = w.ready ++ [J] ∧
    (fiber_join_resume ((fiber_detach (w.switchTo c) F).1.switchTo J) J (some x)).2 =
      (some NULL, Outcome.returned FIBER_SUCCESS) ∧
    (fiber_mark_completed ((fiber_detach (w.switchTo c) F).1.switchTo F) F r).2 =
      Outcome.returned () ∧
    (fiber_mark_completed ((fiber_detach (w.switchTo c) F).1.switchTo F) F r).1.heap J =
      (fiber_detach (w.switchTo c) F).1.heap J ∧
    (fiber_mark_completed ((fiber_detach (w.switchTo c) F).1.switchTo F) F r).1.ready =
      w.ready ++ [J] ∧
    (fiber_mark_completed ((fiber_detach (w.switchTo c) F).1.switchTo F) F r).1.trace =
      w.trace ++ [Event.consume F J] ∧
    (fiber_join_resume
      ((fiber_mark_completed ((fiber_detach (w.switchTo c) F).1.switchTo F) F r).1.switchTo J)
      J (some x)).2 = (some NULL, Outcome.returned FIBER_SUCCESS) := by
  have hFJ : F ≠ J := fun h => hJF h.symm
  simp [fiber_detach, fiber_join_resume, fiber_mark_completed, fiber_manager_clear_or_wait,
    fiber_manager_schedule, fiber_mark_completed_resume, hF, hJ, hJF, hFJ, hds, hslot, hres,
    World.update_heap_other]

/-- A run for C5: in `joinerFirst_joined` fiber `2` is the pending joiner of fiber `1`;
fiber `3` detaches fiber `1`. -/
theorem fiber_detach_wakes_pending_joiner_witness :
    (1 : Ptr) ≠ NULL ∧ (2 : Ptr) ≠ NULL ∧ (2 : Ptr) ≠ 1 ∧
    (joinerFirst_joined.heap 1).detach_state = FIBER_DETACH_WAIT_TO_JOIN ∧
    (joinerFirst_joined.heap 1).join_info = 2 ∧
    (joinerFirst_joined.heap 2).result = NULL ∧
    (fiber_detach (joinerFirst_joined.switchTo 3) 1).2 = Outcome.returned FIBER_SUCCESS ∧
    (fiber_detach (joinerFirst_joined.switchTo 3) 1).1.ready = joinerFirst_joined.ready ++ [2] :=
  have h := fiber_detach_wakes_pending_joiner joinerFirst_joined 1 2 3 7 9 (by decide)
    (by decide) (by decide) (by decide) (by decide) (by decide)
  ⟨by decide, by decide, by decide, by decide, by decide, by decide, h.1, h.2.2.2.2.2.1⟩

/-! ## C6: what a failing call changes -/

theorem World.update_eq_self (w : World) (p : Ptr) (g : Fiber → Fiber)
    (h : g (w.heap p) = w.heap p) : w.update p g = w := by
  cases w with
  | mk heap cur ready trace =>
    simp only [World.update, World.mk.injEq, and_true]
    funext q
    by_cases hq : q = p
    · subst hq
      simpa using h
    · simp [hq]

theorem step_clear_or_wait_place (w : World) (c f : Ptr) (res res2 : Option Ptr)
    (code : RetCode) :
    (Pc.step w c (Pc.mc_clear_or_wait f)).2 ≠ Pc.returned res2 code ∧
    (Pc.step w c (Pc.join_clear_or_wait f res)).2 ≠ Pc.returned res2 code ∧
    (Pc.step w c (Pc.tryjoin_clear_or_wait f res)).2 ≠ Pc.returned res2 code ∧
    (Pc.step w c (Pc.detach_clear_or_wait f)).2 ≠ Pc.returned res2 code := by
  rcases h : fiber_manager_clear_or_wait (w.switchTo c) f with ⟨w1, _ | t⟩ <;>
    simp [Pc.step, h]

/-- C6, amended. (1) Every atomic step that ends a call with `FIBER_ERROR` leaves the world
as it was (only the manager has switched to the caller), with one exception: the exchange of
`fiber_join` or `fiber_tryjoin` that observes a detach state other than `WAIT_TO_JOIN`
returns `FIBER_ERROR` with that state overwritten by `WAIT_TO_JOIN`, and with nothing else
changed. (2) When the detach state of `f` is one of the four protocol values and a call of
`fiber_join`, `fiber_tryjoin` or `fiber_detach` on `f` runs with no step of another fiber in
between and returns `FIBER_ERROR`, the world after the call is the world before it. -/
theorem failing_returns_keep_all_but_detach_state (w : World) (c f : Ptr) (pc : Pc)
    (res : Option Ptr) :
    ((Pc.step w c pc).2 = Pc.returned res FIBER_ERROR → pc ≠ Pc.returned res FIBER_ERROR →
      ((Pc.step w c pc).1 = w.switchTo c ∨
        ∃ g, (pc = Pc.join_exchange g res ∨ pc = Pc.tryjoin_exchange g res) ∧
          (w.heap g).detach_state ≠ FIBER_DETACH_WAIT_TO_JOIN ∧
          (Pc.step w c pc).1 = (w.switchTo c).update g
            (fun fb => { fb with detach_state := FIBER_DETACH_WAIT_TO_JOIN }))) ∧
    (DetachValid (w.heap f).detach_state →
      ((fiber_join w f res).2.2 = Outcome.returned FIBER_ERROR → (fiber_join w f res).1 = w) ∧
      ((fiber_tryjoin w f res).2.2 = Outcome.returned FIBER_ERROR →
        (fiber_tryjoin w f res).1 = w) ∧
      ((fiber_detach w f).2 = Outcome.returned FIBER_ERROR → (fiber_detach w f).1 = w)) := by
  constructor
  · intro hret hne
    cases pc with
    | mc_clear_or_wait g => exact absurd hret (step_clear_or_wait_place w c g none res _).1
    | join_clear_or_wait g x => exact absurd hret (step_clear_or_wait_place w c g x res _).2.1
    | tryjoin_clear_or_wait g x =>
      exact absurd hret (step_clear_or_wait_place w c g x res _).2.2.1
    | detach_clear_or_wait g =>
      exact absurd hret (step_clear_or_wait_place w c g none res _).2.2.2
    | join_exchange g x =>
      by_cases e2 : (w.heap g).detach_state = FIBER_DETACH_WAIT_TO_JOIN
      · left
        have hw : (w.switchTo c).update g
            (fun fb => { fb with detach_state := FIBER_DETACH_WAIT_TO_JOIN }) = w.switchTo c := by
          apply World.update_eq_self
          simp only [World.switchTo_heap]
          rw [← e2]
        simp [Pc.step, e2]
        exact hw
      · right
        refine ⟨g, ?_, e2, ?_⟩
        · simp only [Pc.step] at hret
          split_ifs at hret
          all_goals simp_all
        · simp only [Pc.step]
          split_ifs
          all_goals rfl
    | tryjoin_exchange g x =>
      by_cases e2 : (w.heap g).detach_state = FIBER_DETACH_WAIT_TO_JOIN
      · left
        have hw : (w.switchTo c).update g
            (fun fb => { fb with detach_state := FIBER_DETACH_WAIT_TO_JOIN }) = w.switchTo c := by
          apply World.update_eq_self
          simp only [World.switchTo_heap]
          rw [← e2]
        simp [Pc.step, e2]
        exact hw
      · right
        refine ⟨g, ?_, e2, ?_⟩
        · simp only [Pc.step] at hret
          split_ifs at hret
          all_goals simp_all
        · simp only [Pc.step]
          split_ifs
          all_goals rfl
    | detach_exchange g =>
      left
      by_cases h12 : (w.heap g).detach_state = FIBER_DETACH_WAIT_FOR_JOINER ∨
          (w.heap g).detach_state = FIBER_DETACH_WAIT_TO_JOIN
      · simp [Pc.step, h12] at hret
      · by_cases h3 : (w.heap g).detach_state = FIBER_DETACH_DETACHED
        · have hw : (w.switchTo c).update g
              (fun fb => { fb with detach_state := FIBER_DETACH_DETACHED }) = w.switchTo c := by
            apply World.update_eq_self
            simp only [World.switchTo_heap]
            rw [← h3]
          simp [Pc.step, h3]
          exact hw
        · simp [Pc.step, h12, h3] at hret
    | returned x code =>
      left
      rfl
    | _ =>
      left
      first
        | rfl
        | (simp [Pc.step] at hret; done)
        | (simp only [Pc.step] at hret; split_ifs at hret <;> simp at hret; done)
        | (simp only [Pc.step]; split_ifs <;> rfl)
  · intro hv
    by_cases hf : f = NULL
    · simp [fiber_join, fiber_tryjoin, fiber_detach, hf]
    have hupd2 : (w.heap f).detach_state = FIBER_DETACH_WAIT_TO_JOIN →
        w.update f (fun fb => { fb with detach_state := FIBER_DETACH_WAIT_TO_JOIN }) = w := by
      intro e
      apply World.update_eq_self
      rw [← e]
    have hupd3 : (w.heap f).detach_state = FIBER_DETACH_DETACHED →
        w.update f (fun fb => { fb with detach_state := FIBER_DETACH_DETACHED }) = w := by
      intro e
      apply World.update_eq_self
      rw [← e]
    by_cases hs : (w.heap f).join_info = NULL
    · rcases hv with e | e | e | e
      · simp [fiber_join, fiber_tryjoin, fiber_tryjoin_exchange, fiber_detach,
          fiber_manager_clear_or_wait, fiber_manager_set_and_wait, hf, e, hs]
      · simp [fiber_join, fiber_tryjoin, fiber_tryjoin_exchange, fiber_detach,
          fiber_manager_clear_or_wait, fiber_manager_set_and_wait, hf, e, hs]
      · simp [fiber_join, fiber_tryjoin, fiber_tryjoin_exchange, fiber_detach,
          fiber_manager_clear_or_wait, fiber_manager_set_and_wait, hf, e, hs]
        exact hupd2 e
      · simp [fiber_join, fiber_tryjoin, fiber_tryjoin_exchange, fiber_detach,
          fiber_manager_clear_or_wait, fiber_manager_set_and_wait, hf, e, hs]
        exact hupd3 e
    · rcases hv with e | e | e | e
      · simp [fiber_join, fiber_tryjoin, fiber_tryjoin_exchange, fiber_detach,
          fiber_manager_clear_or_wait, fiber_manager_set_and_wait, hf, e, hs]
      · simp [fiber_join, fiber_tryjoin, fiber_tryjoin_exchange, fiber_detach,
          fiber_manager_clear_or_wait, fiber_manager_set_and_wait, hf, e, hs]
      · simp [fiber_join, fiber_tryjoin, fiber_tryjoin_exchange, fiber_detach,
          fiber_manager_clear_or_wait, fiber_manager_set_and_wait, hf, e, hs]
        exact hupd2 e
      · simp [fiber_join, fiber_tryjoin, fiber_tryjoin_exchange, fiber_detach,
          fiber_manager_clear_or_wait, fiber_manager_set_and_wait, hf, e, hs]
        exact hupd3 e

/-- Runs for C6: in `staleJoin_detached` the exchange of the join of fiber `2` ends the call
with `FIBER_ERROR`; in `joinerFirst_joined` the join of fiber `3` on fiber `1` runs alone,
returns `FIBER_ERROR` and changes nothing. -/
theorem failing_returns_keep_all_but_detach_state_witness :
    ((Pc.step staleJoin_detached.1 2 (Pc.join_exchange 1 (some 0))).2 =
        Pc.returned (some 0) FIBER_ERROR ∧
      Pc.join_exchange 1 (some 0) ≠ Pc.returned (some 0) FIBER_ERROR ∧
      DetachValid (joinerFirst_joined.heap 1).detach_state ∧
      (fiber_join (joinerFirst_joined.switchTo 3) 1 (some 0)).2.2 =
        Outcome.returned FIBER_ERROR) ∧
    ((Pc.step staleJoin_detached.1 2 (Pc.join_exchange 1 (some 0))).1 =
        staleJoin_detached.1.switchTo 2 ∨
      ∃ g, (Pc.join_exchange 1 (some 0) = Pc.join_exchange g (some 0) ∨
          Pc.join_exchange 1 (some 0) = Pc.tryjoin_exchange g (some 0)) ∧
        (staleJoin_detached.1.heap g).detach_state ≠ FIBER_DETACH_WAIT_TO_JOIN ∧
        (Pc.step staleJoin_detached.1 2 (Pc.join_exchange 1 (some 0))).1 =
          (staleJoin_detached.1.switchTo 2).update g
            (fun fb => { fb with detach_state := FIBER_DETACH_WAIT_TO_JOIN })) ∧
    (fiber_join (joinerFirst_joined.switchTo 3) 1 (some 0)).1 =
      joinerFirst_joined.switchTo 3 :=
  ⟨⟨by decide, by decide, Or.inr (Or.inr (Or.inl (by decide))), by decide⟩,
    (failing_returns_keep_all_but_detach_state staleJoin_detached.1 2 1
      (Pc.join_exchange 1 (some 0)) (some 0)).1 (by decide) (by decide),
    ((failing_returns_keep_all_but_detach_state (joinerFirst_joined.switchTo 3) 3 1
      Pc.completed (some 0)).2 (Or.inr (Or.inr (Or.inl (by decide))))).1 (by decide)⟩

/-- C6 fails as stated: on `World.init` fiber `2` calls `fiber_join` on fiber `1` and its
test sees a detach state that is not `DETACHED`; fiber `3` then detaches fiber `1`, with
success; the exchange of fiber `2` now observes `DETACHED` and the call returns
`FIBER_ERROR`, but the detach state of fiber `1` is no longer what it was before that step:
`DETACHED` has been overwritten by `WAIT_TO_JOIN`. -/
theorem fiber_join_error_overwrites_detached :
    staleJoin_tested.2 = Pc.join_exchange 1 (some 0) ∧
    staleJoin_detached.2 = Pc.returned none FIBER_SUCCESS ∧
    (staleJoin_detached.1.heap 1).detach_state = FIBER_DETACH_DETACHED ∧
    staleJoin_exchanged.2 = Pc.returned (some 0) FIBER_ERROR ∧
    (staleJoin_exchanged.1.heap 1).detach_state = FIBER_DETACH_WAIT_TO_JOIN ∧
    (staleJoin_exchanged.1.heap 1).detach_state ≠ (staleJoin_detached.1.heap 1).detach_state :=
  ⟨by decide, by decide, by decide, by decide, by decide, by decide⟩

/-! ## C7: when try-join succeeds -/

theorem iterate_of_fixed (w : World) (c : Ptr) (pc : Pc) (h : Pc.step w c pc = (w, pc))
    (n : Nat) : Pc.iterate n w c pc = (w, pc) := by
  induction n with
  | zero => rfl
  | succ n ih =>
    simp only [Pc.iterate, h]
    exact ih

/-- C7, amended. For a non-null `F` and a call of `fiber_tryjoin(F)` that runs from its
first step with no step of another fiber in between: (1) when the detach state of `F` is
not `WAIT_FOR_JOINER` (so for `NONE`, `WAIT_TO_JOIN` and `DETACHED`) the call returns
`FIBER_ERROR` with `NULL` behind the out-parameter and the world unchanged; (2) when it is
`WAIT_FOR_JOINER` and the slot holds a party, the call returns `FIBER_SUCCESS` with the
result of `F` behind the out-parameter, the detach state is `WAIT_TO_JOIN`, the party has
been taken from the slot, its state is `READY` and it has been scheduled once; (3) when it
is `WAIT_FOR_JOINER` and the slot is empty, the call stands in `clear_or_wait` with the
detach state `WAIT_TO_JOIN` and nothing scheduled. (4) A call that stands in
`clear_or_wait` in a later world `w2` stays there while the slot is empty, and when a party
is in the slot it takes it, sets its state to `READY`, schedules it once and returns
`FIBER_SUCCESS`. (5) So the call returns `FIBER_SUCCESS` without waiting if and only if the
detach state is `WAIT_FOR_JOINER` and the slot is not empty. (6) Step by step, with other
fibers free to run in between: the first test ends the call with `FIBER_ERROR` exactly
when it sees `DETACHED`, the second test and the exchange exactly when they see a state
other than `WAIT_FOR_JOINER`. -/
theorem fiber_tryjoin_success_iff (w w2 : World) (F c : Ptr) (res : Option Ptr)
    (hF : F ≠ NULL) :
    ((w.heap F).detach_state ≠ FIBER_DETACH_WAIT_FOR_JOINER →
      Pc.runCall 12 w c (Pc.tryjoin_entry F res) =
        (w.switchTo c, Pc.returned (res.map (fun _ => NULL)) FIBER_ERROR)) ∧
    ((w.heap F).detach_state = FIBER_DETACH_WAIT_FOR_JOINER → (w.heap F).join_info ≠ NULL →
      (Pc.runCall 12 w c (Pc.tryjoin_entry F res)).2 =
        Pc.returned (res.map (fun _ => (w.heap F).result)) FIBER_SUCCESS ∧
      ((Pc.runCall 12 w c (Pc.tryjoin_entry F res)).1.heap F).detach_state =
        FIBER_DETACH_WAIT_TO_JOIN ∧
      ((Pc.runCall 12 w c (Pc.tryjoin_entry F res)).1.heap F).join_info = NULL ∧
      (Pc.runCall 12 w c (Pc.tryjoin_entry F res)).1.trace =
        w.trace ++ [Event.consume F (w.heap F).join_info] ∧
      ((Pc.runCall 12 w c (Pc.tryjoin_entry F res)).1.heap (w.heap F).join_info).state =
        FIBER_STATE_READY ∧
      (Pc.runCall 12 w c (Pc.tryjoin_entry F res)).1.ready =
        w.ready ++ [(w.heap F).join_info]) ∧
    ((w.heap F).detach_state = FIBER_DETACH_WAIT_FOR_JOINER → (w.heap F).join_info = NULL →
      (Pc.runCall 12 w c (Pc.tryjoin_entry F res)).2 =
        Pc.tryjoin_clear_or_wait F (res.map (fun _ => (w.heap F).result)) ∧
      ((Pc.runCall 12 w c (Pc.tryjoin_entry F res)).1.heap F).detach_state =
        FIBER_DETACH_WAIT_TO_JOIN ∧
      (Pc.runCall 12 w c (Pc.tryjoin_entry F res)).1.ready = w.ready ∧
      (Pc.runCall 12 w c (Pc.tryjoin_entry F res)).1.trace = w.trace) ∧
    (((w2.heap F).join_info = NULL →
        Pc.step w2 c (Pc.tryjoin_clear_or_wait F res) =
          (w2.switchTo c, Pc.tryjoin_clear_or_wait F res)) ∧
      ((w2.heap F).join_info ≠ NULL →
        (Pc.runCall 12 w2 c (Pc.tryjoin_clear_or_wait F res)).2 =
          Pc.returned res FIBER_SUCCESS ∧
        ((Pc.runCall 12 w2 c (Pc.tryjoin_clear_or_wait F res)).1.heap F).join_info = NULL ∧
        (Pc.runCall 12 w2 c (Pc.tryjoin_clear_or_wait F res)).1.trace =
          w2.trace ++ [Event.consume F (w2.heap F).join_info] ∧
        ((Pc.runCall 12 w2 c (Pc.tryjoin_clear_or_wait F res)).1.heap
          (w2.heap F).join_info).state = FIBER_STATE_READY ∧
        (Pc.runCall 12 w2 c (Pc.tryjoin_clear_or_wait F res)).1.ready =
          w2.ready ++ [(w2.heap F).join_info])) ∧
    ((∃ out, (Pc.runCall 12 w c (Pc.tryjoin_entry F res)).2 = Pc.returned out FIBER_SUCCESS) ↔
      ((w.heap F).detach_state = FIBER_DETACH_WAIT_FOR_JOINER ∧
        (w.heap F).join_info ≠ NULL)) ∧
    (((Pc.step w2 c (Pc.tryjoin_entry F res)).2 =
          Pc.returned (res.map (fun _ => NULL)) FIBER_ERROR ↔
        (w2.heap F).detach_state = FIBER_DETACH_DETACHED) ∧
      ((Pc.step w2 c (Pc.tryjoin_load F res)).2 = Pc.returned res FIBER_ERROR ↔
        (w2.heap F).detach_state ≠ FIBER_DETACH_WAIT_FOR_JOINER) ∧
      ((Pc.step w2 c (Pc.tryjoin_exchange F res)).2 = Pc.returned res FIBER_ERROR ↔
        (w2.heap F).detach_state ≠ FIBER_DETACH_WAIT_FOR_JOINER)) := by
  refine ⟨?_, ?_, ?_, ⟨?_, ?_⟩, ?_, ⟨?_, ?_, ?_⟩⟩
  · intro h1
    by_cases h3 : (w.heap F).detach_state = FIBER_DETACH_DETACHED
    · simp [Pc.runCall, Pc.step, Pc.Stops, hF, h3]
    · simp [Pc.runCall, Pc.step, Pc.Stops, hF, h1, h3]
      rfl
  · intro h1 hs
    by_cases hp : (w.heap F).join_info = F
    · simp [Pc.runCall, Pc.step, Pc.Stops, fiber_manager_clear_or_wait,
        fiber_manager_schedule, hF, h1, hp, World.update_heap]
      cases res <;> rfl
    · have hp2 : F ≠ (w.heap F).join_info := fun h => hp h.symm
      simp [Pc.runCall, Pc.step, Pc.Stops, fiber_manager_clear_or_wait,
        fiber_manager_schedule, hF, h1, hs, hp, hp2, World.update_heap]
      cases res <;> rfl
  · intro h1 hs
    simp [Pc.runCall, Pc.step, Pc.Stops, hF, h1, hs, World.update_heap]
    cases res <;> rfl
  · intro hs
    simp [Pc.step, fiber_manager_clear_or_wait, hs]
  · intro hs
    by_cases hp : (w2.heap F).join_info = F
    · simp [Pc.runCall, Pc.step, Pc.Stops, fiber_manager_clear_or_wait,
        fiber_manager_schedule, hF, hp, World.update_heap]
    · have hp2 : F ≠ (w2.heap F).join_info := fun h => hp h.symm
      simp [Pc.runCall, Pc.step, Pc.Stops, fiber_manager_clear_or_wait,
        fiber_manager_schedule, hF, hs, hp, hp2, World.update_heap]
  · by_cases h3 : (w.heap F).detach_state = FIBER_DETACH_DETACHED
    · simp [Pc.runCall, Pc.step, Pc.Stops, hF, h3]
    by_cases h1 : (w.heap F).detach_state = FIBER_DETACH_WAIT_FOR_JOINER
    · by_cases hs : (w.heap F).join_info = NULL
      · simp [Pc.runCall, Pc.step, Pc.Stops, hF, h1, hs, World.update_heap]
      · simp [Pc.runCall, Pc.step, Pc.Stops, fiber_manager_clear_or_wait, hF, h1, hs,
          World.update_heap]
    · simp [Pc.runCall, Pc.step, Pc.Stops, hF, h1, h3]
  · by_cases h3 : (w2.heap F).detach_state = FIBER_DETACH_DETACHED <;>
      simp [Pc.step, hF, h3]
  · by_cases h1 : (w2.heap F).detach_state = FIBER_DETACH_WAIT_FOR_JOINER <;>
      simp [Pc.step, h1]
  · by_cases h1 : (w2.heap F).detach_state = FIBER_DETACH_WAIT_FOR_JOINER <;>
      simp [Pc.step, h1]

/-- A run for C7: in `finisherFirst_completed` fiber `1` has published itself and waits for a
joiner; the `fiber_tryjoin` of fiber `2` succeeds with result `7`. -/
theorem fiber_tryjoin_success_iff_witness :
    ((1 : Ptr) ≠ NULL ∧
      (finisherFirst_completed.heap 1).detach_state = FIBER_DETACH_WAIT_FOR_JOINER ∧
      (finisherFirst_completed.heap 1).join_info ≠ NULL) ∧
    (Pc.runCall 12 finisherFirst_completed 2 (Pc.tryjoin_entry 1 (some 0))).2 =
      Pc.returned (some 7) FIBER_SUCCESS ∧
    (Pc.runCall 12 finisherFirst_completed 2 (Pc.tryjoin_entry 1 (some 0))).1.ready = [1] :=
  have h := (fiber_tryjoin_success_iff finisherFirst_completed finisherFirst_completed 1 2
    (some 0) (by decide)).2.1 (by decide) (by decide)
  ⟨⟨by decide, by decide, by decide⟩, h.1, h.2.2.2.2.2⟩

theorem reachable_joinerFirst_resumed : Reachable joinerFirst_resumed :=
  ⟨World.init, fresh_init,
    steps_trans
      (steps_trans (steps_runCall 12 World.init 2 (Pc.join_entry 1 (some 0)))
        (steps_runCall 12 joinerFirst_joined 1 (Pc.mc_store 1 7)))
      (steps_iterate 3 joinerFirst_completed 2 (Pc.join_parked 2 (some 0)))⟩

/-- C7 fails as stated: in the reachable world where fiber `2` joined fiber `1`, fiber `1`
completed and the join of fiber `2` returned, the detach state of fiber `1` is
`WAIT_FOR_JOINER`, yet the `fiber_tryjoin` of fiber `3` does not return `FIBER_SUCCESS`: it
stands in `clear_or_wait` on the empty slot, and however many steps it takes with no other
call in progress, it stays there. -/
theorem fiber_tryjoin_wait_for_joiner_not_success :
    Reachable joinerFirst_resumed ∧
    (joinerFirst_resumed.heap 1).detach_state = FIBER_DETACH_WAIT_FOR_JOINER ∧
    (fiber_tryjoin (joinerFirst_resumed.switchTo 3) 1 (some 0)).2.2 ≠
      Outcome.returned FIBER_SUCCESS ∧
    (Pc.runCall 12 joinerFirst_resumed 3 (Pc.tryjoin_entry 1 (some 0))).2 =
      Pc.tryjoin_clear_or_wait 1 (some 7) ∧
    (∀ n, (Pc.iterate n (Pc.runCall 12 joinerFirst_resumed 3 (Pc.tryjoin_entry 1 (some 0))).1
        3 (Pc.tryjoin_clear_or_wait 1 (some 7))).2 = Pc.tryjoin_clear_or_wait 1 (some 7)) := by
  refine ⟨reachable_joinerFirst_resumed, by decide, by decide, by decide, ?_⟩
  intro n
  rw [iterate_of_fixed _ 3 _ rfl n]

/-! ## C8, C9: key creation -/

theorem fiber_key_create_loop_all_null (keys : Nat → Ptr) (h : ∀ i, keys i = NULL)
    (remaining cnt : Nat) : fiber_key_create_loop keys remaining cnt = none := by
  induction remaining generalizing cnt with
  | zero => rfl
  | succ n ih => simp [fiber_key_create_loop, h cnt, ih]

/-- C8, the code at the failing input. On the zero-filled registry `fiber_key_create`
returns `FIBER_ERROR`, writes nothing to `*key` and leaves the registry zero-filled, so
the first call fails and so does every call after it. -/
theorem fiber_key_create_zero_registry_fails (key : Nat) :
    fiber_key_create Registry.zero key = (Registry.zero, key, FIBER_ERROR) := by
  simp [fiber_key_create, fiber_key_create_loop_all_null Registry.zero.__fiber_keys
    (fun _ => rfl)]

/-- C9, the code at the failing inputs. (1) In the zero-filled registry every slot is free,
yet `fiber_key_create` returns `FIBER_ERROR`. (2) In the registry where only key `5` holds
a value, slot `0` is free, yet `fiber_key_create` returns `FIBER_SUCCESS` with `*key = 5`,
the occupied slot. -/
theorem fiber_key_create_skips_free_slots :
    (fiber_getspecific Registry.zero 0 = NULL ∧
      (fiber_key_create Registry.zero 0).2.2 = FIBER_ERROR) ∧
    (fiber_getspecific Registry.oneUsed 0 = NULL ∧
      fiber_getspecific Registry.oneUsed 5 = 77 ∧
      (fiber_key_create Registry.oneUsed 0).2 = (5, FIBER_SUCCESS)) := by
  refine ⟨⟨by decide, ?_⟩, by decide, by decide, by decide⟩
  simp [fiber_key_create, fiber_key_create_loop_all_null Registry.zero.__fiber_keys
    (fun _ => rfl)]

/-! ## C10: delete, then get -/

/-- C10. For every registry, every key `k < 1024` and every value `v`:
`fiber_key_delete(k)` returns `FIBER_SUCCESS`; afterwards `fiber_getspecific(k)` is `NULL`,
also when `v` was stored at `k` just before; every other slot of the table, and what
`fiber_getspecific` returns for every other key, is as before. -/
theorem fiber_getspecific_after_key_delete (g : Registry) (k : Nat) (v : Ptr)
    (hk : k < FIBER_KEYS_MAX) :
    (fiber_key_delete g k).2 = FIBER_SUCCESS ∧
    fiber_getspecific (fiber_key_delete g k).1 k = NULL ∧
    (fiber_getspecific (fiber_setspecific g k v).1 k = v ∧
      fiber_getspecific (fiber_key_delete (fiber_setspecific g k v).1 k).1 k = NULL) ∧
    (∀ j, j ≠ k →
      (fiber_key_delete g k).1.__fiber_keys j = g.__fiber_keys j ∧
      fiber_getspecific (fiber_key_delete g k).1 j = fiber_getspecific g j) := by
  have hk2 : ¬ (1024 ≤ k) := by
    have : k < 1024 := hk
    omega
  refine ⟨?_, ?_, ⟨?_, ?_⟩, ?_⟩
  · simp [fiber_key_delete, hk2]
  · simp [fiber_key_delete, fiber_getspecific, hk2]
  · simp [fiber_setspecific, fiber_getspecific, hk2]
  · simp [fiber_key_delete, fiber_setspecific, fiber_getspecific, hk2]
  · intro j hj
    simp [fiber_key_delete, fiber_getspecific, hk2, hj]

/-- A run for C10: key `5` holds `77`; after `fiber_key_delete(5)` it reads `NULL`. -/
theorem fiber_getspecific_after_key_delete_witness :
    5 < FIBER_KEYS_MAX ∧ fiber_getspecific Registry.oneUsed 5 = 77 ∧
    fiber_getspecific (fiber_key_delete Registry.oneUsed 5).1 5 = NULL :=
  ⟨by decide, by decide,
    (fiber_getspecific_after_key_delete Registry.oneUsed 5 0 (by decide)).2.1⟩

/-! ## C11: keys out of range -/

/-- C11. For every registry, key and value: when `key >= 1024` (`FIBER_KEYS_MAX`, so `1024`
itself is out of range) `fiber_key_delete` and `fiber_setspecific` return `FIBER_ERROR` and
leave the registry as it was, and `fiber_getspecific` returns `NULL`; when `key < 1024`
`fiber_key_delete` and `fiber_setspecific` return `FIBER_SUCCESS`. -/
theorem fiber_key_bounds_check (g : Registry) (key : Nat) (value : Ptr) :
    (key ≥ FIBER_KEYS_MAX →
      fiber_key_delete g key = (g, FIBER_ERROR) ∧
      fiber_setspecific g key value = (g, FIBER_ERROR) ∧
      fiber_getspecific g key = NULL) ∧
    (key < FIBER_KEYS_MAX →
      (fiber_key_delete g key).2 = FIBER_SUCCESS ∧
      (fiber_setspecific g key value).2 = FIBER_SUCCESS) := by
  constructor
  · intro h
    have h2 : 1024 ≤ key := h
    simp [fiber_key_delete, fiber_setspecific, fiber_getspecific, h2]
  · intro h
    have h2 : ¬ (1024 ≤ key) := by
      have : key < 1024 := h
      omega
    simp [fiber_key_delete, fiber_setspecific, h2]

/-- A run for C11: key `1024` is refused on `Registry.oneUsed`, key `1023` is accepted. -/
theorem fiber_key_bounds_check_witness :
    (1024 ≥ FIBER_KEYS_MAX ∧ 1023 < FIBER_KEYS_MAX) ∧
    fiber_setspecific Registry.oneUsed 1024 9 = (Registry.oneUsed, FIBER_ERROR) ∧
    (fiber_setspecific Registry.oneUsed 1023 9).2 = FIBER_SUCCESS :=
  ⟨⟨by decide, by decide⟩,
    ((fiber_key_bounds_check Registry.oneUsed 1024 9).1 (by decide)).2.1,
    ((fiber_key_bounds_check Registry.oneUsed 1023 9).2 (by decide)).2⟩

/-! ## C12: set, then get -/

/-- C12. For every registry, every key `k < 1024` and every value `v`: after
`fiber_setspecific(k, v)`, `fiber_getspecific(k)` returns `v`, and for every other key `j`
the slot and what `fiber_getspecific(j)` returns are as before. -/
theorem fiber_getspecific_after_setspecific (g : Registry) (k : Nat) (v : Ptr)
    (hk : k < FIBER_KEYS_MAX) :
    (fiber_setspecific g k v).2 = FIBER_SUCCESS ∧
    fiber_getspecific (fiber_setspecific g k v).1 k = v ∧
    (∀ j, j ≠ k →
      (fiber_setspecific g k v).1.__fiber_keys j = g.__fiber_keys j ∧
      fiber_getspecific (fiber_setspecific g k v).1 j = fiber_getspecific g j) := by
  have hk2 : ¬ (1024 ≤ k) := by
    have : k < 1024 := hk
    omega
  refine ⟨?_, ?_, ?_⟩
  · simp [fiber_setspecific, hk2]
  · simp [fiber_setspecific, fiber_getspecific, hk2]
  · intro j hj
    simp [fiber_setspecific, fiber_getspecific, hk2, hj]

/-- A run for C12: storing `9` at key `3` of `Registry.oneUsed` makes key `3` read `9` and
leaves key `5` reading `77`. -/
theorem fiber_getspecific_after_setspecific_witness :
    3 < FIBER_KEYS_MAX ∧ (5 : Nat) ≠ 3 ∧
    fiber_getspecific (fiber_setspecific Registry.oneUsed 3 9).1 3 = 9 ∧
    fiber_getspecific (fiber_setspecific Registry.oneUsed 3 9).1 5 =
      fiber_getspecific Registry.oneUsed 5 :=
  have h := fiber_getspecific_after_setspecific Registry.oneUsed 3 9 (by decide)
  ⟨by decide, by decide, h.2.1, (h.2.2 5 (by decide)).2⟩

/-! ## C13: a null fiber -/

/-- C13, amended. With a null fiber, `fiber_join` (and `fiber_tryjoin`) dies in
`assert(f)` without touching the world or the out-parameter and returns nothing;
`fiber_detach` returns `FIBER_ERROR` and leaves the world as it was. -/
theorem null_fiber_join_aborts_detach_errors (w : World) (res : Option Ptr) :
    fiber_join w NULL res = (w, res, Outcome.aborted) ∧
    fiber_tryjoin w NULL res = (w, res, Outcome.aborted) ∧
    fiber_detach w NULL = (w, Outcome.returned FIBER_ERROR) := by
  simp [fiber_join, fiber_tryjoin, fiber_detach]

/-- C13 fails as stated: on `World.init`, `fiber_detach` with a null fiber returns
`FIBER_ERROR`; it does not abort. -/
theorem fiber_detach_null_returns_error :
    (fiber_detach World.init NULL).2 = Outcome.returned FIBER_ERROR ∧
    (fiber_detach World.init NULL).2 ≠ Outcome.aborted :=
  ⟨by decide, by decide⟩

/-! ## C14: creation -/

/-- C14. When both allocations and `fiber_context_init` succeed, `fiber_create_no_sched`
returns the new fiber with state `READY`, detach state `NONE`, empty slot, null result and
the given entry function and argument, and leaves the ready list as it was; `fiber_create`
returns the new fiber with the same fields and appends it once to the ready list. When an
allocation fails both return `NULL` and leave the world (so the ready list) as it was. -/
theorem fiber_create_fields (w : World) (ret node : Ptr) (fiber_context_init : Nat → RetCode)
    (stack_size : Nat) (run_function param : Ptr) :
    (ret ≠ NULL → node ≠ NULL → fiber_context_init stack_size = FIBER_SUCCESS →
      ((fiber_create_no_sched w ret node fiber_context_init stack_size run_function
          param).2.1 = ret ∧
        (fiber_create_no_sched w ret node fiber_context_init stack_size run_function
          param).1.heap ret = Fiber.created run_function param node ∧
        (fiber_create_no_sched w ret node fiber_context_init stack_size run_function
          param).1.ready = w.ready) ∧
      ((fiber_create w ret node fiber_context_init stack_size run_function param).2.1 = ret ∧
        (fiber_create w ret node fiber_context_init stack_size run_function
          param).1.heap ret = Fiber.created run_function param node ∧
        (fiber_create w ret node fiber_context_init stack_size run_function
          param).1.ready = w.ready ++ [ret])) ∧
    (ret = NULL ∨ node = NULL →
      (fiber_create_no_sched w ret node fiber_context_init stack_size run_function
          param).1 = w ∧
      (fiber_create_no_sched w ret node fiber_context_init stack_size run_function
          param).2.1 = NULL ∧
      (fiber_create w ret node fiber_context_init stack_size run_function param).1 = w ∧
      (fiber_create w ret node fiber_context_init stack_size run_function param).2.1 =
        NULL) := by
  constructor
  · intro hret hnode hctx
    simp [fiber_create, fiber_create_no_sched, fiber_manager_schedule, hret, hnode, hctx,
      Fiber.created, Fiber.zeroed]
  · intro h
    by_cases hret : ret = NULL
    · simp [fiber_create, fiber_create_no_sched, hret]
    · have hnode : node = NULL := h.resolve_left hret
      simp [fiber_create, fiber_create_no_sched, hret, hnode]

/-- A run for C14: on `World.init` the allocations give `8` and `9` and the context
initialisation succeeds; with a failed first allocation nothing is returned. -/
theorem fiber_create_fields_witness :
    ((8 : Ptr) ≠ NULL ∧ (9 : Ptr) ≠ NULL ∧ (NULL = NULL ∨ (9 : Ptr) = NULL)) ∧
    (fiber_create World.init 8 9 (fun _ => FIBER_SUCCESS) 102400 5 6).1.ready = [8] ∧
    ((fiber_create World.init 8 9 (fun _ => FIBER_SUCCESS) 102400 5 6).1.heap 8).state =
      FIBER_STATE_READY ∧
    (fiber_create World.init NULL 9 (fun _ => FIBER_SUCCESS) 102400 5 6).2.1 = NULL :=
  have h := (fiber_create_fields World.init 8 9 (fun _ => FIBER_SUCCESS) 102400 5 6).1
    (by decide) (by decide) rfl
  have h0 := (fiber_create_fields World.init NULL 9 (fun _ => FIBER_SUCCESS) 102400 5 6).2
    (Or.inl rfl)
  ⟨⟨by decide, by decide, Or.inl rfl⟩, h.2.2.2, by rw [h.2.2.1]; rfl, h0.2.2.2⟩

/-! ## C15: where the detach state can move -/

theorem whole_call_detach_state (w : World) (g q r : Ptr) (res : Option Ptr) :
    (((fiber_mark_completed w g r).1.heap q).detach_state = (w.heap q).detach_state ∨
      ((w.heap q).detach_state ≠ FIBER_DETACH_DETACHED ∧
        ((fiber_mark_completed w g r).1.heap q).detach_state =
          FIBER_DETACH_WAIT_FOR_JOINER)) ∧
    (((fiber_join w g res).1.heap q).detach_state = (w.heap q).detach_state ∨
      ((w.heap q).detach_state ≠ FIBER_DETACH_DETACHED ∧
        ((fiber_join w g res).1.heap q).detach_state = FIBER_DETACH_WAIT_TO_JOIN)) ∧
    (((fiber_tryjoin w g res).1.heap q).detach_state = (w.heap q).detach_state ∨
      ((w.heap q).detach_state ≠ FIBER_DETACH_DETACHED ∧
        ((fiber_tryjoin w g res).1.heap q).detach_state = FIBER_DETACH_WAIT_TO_JOIN)) ∧
    (((fiber_detach w g).1.heap q).detach_state = (w.heap q).detach_state ∨
      ((fiber_detach w g).1.heap q).detach_state = FIBER_DETACH_DETACHED) := by
  by_cases hg : q = g
  · subst hg
    refine ⟨?_, ?_, ?_, ?_⟩
    · rw [(fiber_mark_completed_target w q r).1]
      by_cases e : (w.heap q).detach_state = FIBER_DETACH_DETACHED <;> simp [e]
    · by_cases hq : q = NULL
      · have : (fiber_join w q res).1 = w := by simp [fiber_join, hq]
        rw [this]
        exact Or.inl rfl
      · rw [(fiber_join_target w q res hq).1]
        by_cases e : (w.heap q).detach_state = FIBER_DETACH_DETACHED <;> simp [e]
    · by_cases hq : q = NULL
      · have : (fiber_tryjoin w q res).1 = w := by simp [fiber_tryjoin, hq]
        rw [this]
        exact Or.inl rfl
      · rw [(fiber_tryjoin_target w q res hq).1]
        by_cases e : (w.heap q).detach_state = FIBER_DETACH_WAIT_FOR_JOINER <;> simp [e]
    · by_cases hq : q = NULL
      · have : (fiber_detach w q).1 = w := by simp [fiber_detach, hq]
        rw [this]
        exact Or.inl rfl
      · exact Or.inr (fiber_detach_target w q hq).1
  · exact ⟨Or.inl (fiber_mark_completed_frame w g q r hg).1,
      Or.inl (fiber_join_frame w g q res hg).1, Or.inl (fiber_tryjoin_frame w g q res hg).1,
      Or.inl (fiber_detach_frame w g q hg).1⟩

theorem forward_of_waiting {d d1 v : Int} (hv : DetachValid d)
    (h : d1 = d ∨ (d ≠ FIBER_DETACH_DETACHED ∧ d1 = v))
    (hw : v = FIBER_DETACH_WAIT_FOR_JOINER ∨ v = FIBER_DETACH_WAIT_TO_JOIN) :
    detachRank d ≤ detachRank d1 ∧ (d = FIBER_DETACH_DETACHED → d1 = FIBER_DETACH_DETACHED) := by
  rcases h with h | ⟨hn, h⟩
  · rw [h]
    exact ⟨le_refl _, id⟩
  · rw [h]
    refine ⟨?_, fun e => absurd e hn⟩
    rcases hw with e1 | e1 <;> rcases hv with e | e | e | e <;>
      first
        | exact absurd e hn
        | simp [e, e1, detachRank]

theorem forward_of_detached {d d1 : Int} (hv : DetachValid d)
    (h : d1 = d ∨ d1 = FIBER_DETACH_DETACHED) :
    detachRank d ≤ detachRank d1 ∧ (d = FIBER_DETACH_DETACHED → d1 = FIBER_DETACH_DETACHED) := by
  rcases h with h | h
  · rw [h]
    exact ⟨le_refl _, id⟩
  · rw [h]
    refine ⟨?_, fun _ => rfl⟩
    rcases hv with e | e | e | e <;> simp [e, detachRank]

/-- C15, amended. Let the detach state of `q` be one of the four protocol values. (1) After
every atomic step of any call it still is, and it is `NONE` only if it was `NONE` before.
(2) If the rank in `NONE` < `WAIT_FOR_JOINER`, `WAIT_TO_JOIN` < `DETACHED` is lower after
the step than before, the state was `DETACHED` and the step is the exchange of
`fiber_mark_completed`, `fiber_join` or `fiber_tryjoin` on `q`, which runs whatever the
test before it saw. (3) When a call of `fiber_mark_completed`, `fiber_join`,
`fiber_tryjoin` or `fiber_detach` runs from its first step until it stops with no step of
another fiber in between, the rank afterwards is not lower than before, and a state that
was `DETACHED` is `DETACHED` afterwards. -/
theorem detach_state_moves_forward (w : World) (c q g r : Ptr) (res : Option Ptr) (pc : Pc)
    (hv : DetachValid (w.heap q).detach_state) :
    (DetachValid ((Pc.step w c pc).1.heap q).detach_state ∧
      (((Pc.step w c pc).1.heap q).detach_state = FIBER_DETACH_NONE →
        (w.heap q).detach_state = FIBER_DETACH_NONE)) ∧
    (detachRank ((Pc.step w c pc).1.heap q).detach_state < detachRank (w.heap q).detach_state →
      (w.heap q).detach_state = FIBER_DETACH_DETACHED ∧
      (pc = Pc.mc_exchange q ∨ (∃ x, pc = Pc.join_exchange q x) ∨
        (∃ x, pc = Pc.tryjoin_exchange q x))) ∧
    ((detachRank (w.heap q).detach_state ≤
        detachRank ((Pc.runCall 12 w c (Pc.mc_store g r)).1.heap q).detach_state ∧
      ((w.heap q).detach_state = FIBER_DETACH_DETACHED →
        ((Pc.runCall 12 w c (Pc.mc_store g r)).1.heap q).detach_state =
          FIBER_DETACH_DETACHED)) ∧
     (detachRank (w.heap q).detach_state ≤
        detachRank ((Pc.runCall 12 w c (Pc.join_entry g res)).1.heap q).detach_state ∧
      ((w.heap q).detach_state = FIBER_DETACH_DETACHED →
        ((Pc.runCall 12 w c (Pc.join_entry g res)).1.heap q).detach_state =
          FIBER_DETACH_DETACHED)) ∧
     (detachRank (w.heap q).detach_state ≤
        detachRank ((Pc.runCall 12 w c (Pc.tryjoin_entry g res)).1.heap q).detach_state ∧
      ((w.heap q).detach_state = FIBER_DETACH_DETACHED →
        ((Pc.runCall 12 w c (Pc.tryjoin_entry g res)).1.heap q).detach_state =
          FIBER_DETACH_DETACHED)) ∧
     (detachRank (w.heap q).detach_state ≤
        detachRank ((Pc.runCall 12 w c (Pc.detach_entry g)).1.heap q).detach_state ∧
      ((w.heap q).detach_state = FIBER_DETACH_DETACHED →
        ((Pc.runCall 12 w c (Pc.detach_entry g)).1.heap q).detach_state =
          FIBER_DETACH_DETACHED))) := by
  have hstep := step_detach_state w c q pc
  refine ⟨?_, ?_, ?_⟩
  · rw [hstep]
    cases pc <;> simp only [Pc.exchanges] <;>
      first
        | exact ⟨hv, id⟩
        | (split_ifs <;> first
            | exact ⟨hv, id⟩
            | exact ⟨Or.inr (Or.inl rfl), fun e => absurd e (by decide)⟩
            | exact ⟨Or.inr (Or.inr (Or.inl rfl)), fun e => absurd e (by decide)⟩
            | exact ⟨Or.inr (Or.inr (Or.inr rfl)), fun e => absurd e (by decide)⟩)
  · rw [hstep]
    cases pc <;> simp only [Pc.exchanges] <;>
      first
        | (intro h; exact absurd h (lt_irrefl _))
        | (split_ifs with hq <;> first
            | (intro h; exact absurd h (lt_irrefl _))
            | (subst hq
               intro h
               rcases hv with e | e | e | e <;> simp [e, detachRank] at h ⊢))
  · have hw := whole_call_detach_state (w.switchTo c) g q r res
    rw [(runCall_fiber_mark_completed w c g r).1, (runCall_fiber_join w c g res).1,
      (runCall_fiber_tryjoin w c g res).1, (runCall_fiber_detach w c g).1]
    exact ⟨forward_of_waiting hv hw.1 (Or.inl rfl), forward_of_waiting hv hw.2.1 (Or.inr rfl),
      forward_of_waiting hv hw.2.2.1 (Or.inr rfl), forward_of_detached hv hw.2.2.2⟩

/-- Runs for C15: in `joinerFirst_joined` fiber `1` is in `WAIT_TO_JOIN` and its completion,
run alone, leaves it in `WAIT_FOR_JOINER`, of the same rank; in `staleCompletion_detached`
the exchange of the completion lowers the rank, and the state before it was `DETACHED`. -/
theorem detach_state_moves_forward_witness :
    (DetachValid (joinerFirst_joined.heap 1).detach_state ∧
      DetachValid (staleCompletion_detached.1.heap 1).detach_state ∧
      detachRank ((Pc.step staleCompletion_detached.1 1 (Pc.mc_exchange 1)).1.heap
        1).detach_state < detachRank (staleCompletion_detached.1.heap 1).detach_state) ∧
    detachRank (joinerFirst_joined.heap 1).detach_state ≤
      detachRank ((Pc.runCall 12 joinerFirst_joined 1 (Pc.mc_store 1 7)).1.heap
        1).detach_state ∧
    (staleCompletion_detached.1.heap 1).detach_state = FIBER_DETACH_DETACHED :=
  have hv1 : DetachValid (joinerFirst_joined.heap 1).detach_state :=
    Or.inr (Or.inr (Or.inl (by decide)))
  have hv2 : DetachValid (staleCompletion_detached.1.heap 1).detach_state :=
    Or.inr (Or.inr (Or.inr (by decide)))
  ⟨⟨hv1, hv2, by decide⟩,
    (detach_state_moves_forward joinerFirst_joined 1 1 1 7 none Pc.completed hv1).2.2.1.1,
    ((detach_state_moves_forward staleCompletion_detached.1 1 1 1 7 none (Pc.mc_exchange 1)
      hv2).2.1 (by decide)).1⟩

/-- C15 fails as stated: on `World.init` fiber `1` finishes and its test of `detach_state`
sees a state that is not `DETACHED`; fiber `3` then detaches fiber `1`, with success; the
exchange of fiber `1` now runs on `DETACHED` and leaves `WAIT_FOR_JOINER`. The rank has
dropped and `DETACHED` was not absorbing. -/
theorem fiber_mark_completed_exchange_overwrites_detached :
    staleCompletion_tested.2 = Pc.mc_exchange 1 ∧
    staleCompletion_detached.2 = Pc.returned none FIBER_SUCCESS ∧
    (staleCompletion_detached.1.heap 1).detach_state = FIBER_DETACH_DETACHED ∧
    (staleCompletion_exchanged.1.heap 1).detach_state = FIBER_DETACH_WAIT_FOR_JOINER ∧
    detachRank (staleCompletion_exchanged.1.heap 1).detach_state <
      detachRank (staleCompletion_detached.1.heap 1).detach_state :=
  ⟨by decide, by decide, by decide, by decide, by decide⟩

/-! ## C16: completion -/

theorem fiber_tryjoin_interleaved_id (w : World) (f : Ptr) (result : Option Ptr) :
    fiber_tryjoin_interleaved w id f result = fiber_tryjoin w f result := rfl

/-- C17, amended. Let `w` be the world the `atomic_exchange` of `fiber_tryjoin` runs on,
with `p` the detach state of `f` it observes. (1) The code returns the same status and
leaves the same out-parameter as the compare-and-exchange of the spec. (2) After the code
the detach state is `WAIT_TO_JOIN`, for every `p`. (3) When `p` is not `WAIT_FOR_JOINER`
the code returns `FIBER_ERROR` and leaves the out-parameter alone; the compare-and-exchange
leaves the world as it was, the code leaves it with the detach state of `f` overwritten by
`WAIT_TO_JOIN`. (4) The code and the compare-and-exchange give the same world exactly when
`p` is `WAIT_FOR_JOINER` or `WAIT_TO_JOIN`. -/
theorem fiber_tryjoin_exchange_vs_compare_exchange (w : World) (f : Ptr)
    (result : Option Ptr) :
    (fiber_tryjoin_exchange w f result).2 = (spec_tryjoin_compare_exchange w f result).2 ∧
    ((fiber_tryjoin_exchange w f result).1.heap f).detach_state =
      FIBER_DETACH_WAIT_TO_JOIN ∧
    ((w.heap f).detach_state ≠ FIBER_DETACH_WAIT_FOR_JOINER →
      (fiber_tryjoin_exchange w f result).2 = (result, Outcome.returned FIBER_ERROR) ∧
      (spec_tryjoin_compare_exchange w f result).1 = w ∧
      (fiber_tryjoin_exchange w f result).1 =
        w.update f (fun fb => { fb with detach_state := FIBER_DETACH_WAIT_TO_JOIN })) ∧
    (fiber_tryjoin_exchange w f result = spec_tryjoin_compare_exchange w f result ↔
      ((w.heap f).detach_state = FIBER_DETACH_WAIT_FOR_JOINER ∨
        (w.heap f).detach_state = FIBER_DETACH_WAIT_TO_JOIN)) := by
  by_cases h1 : (w.heap f).detach_state = FIBER_DETACH_WAIT_FOR_JOINER
  · have heq : fiber_tryjoin_exchange w f result = spec_tryjoin_compare_exchange w f result := by
      simp [fiber_tryjoin_exchange, spec_tryjoin_compare_exchange, h1]
    refine ⟨by rw [heq], ?_, fun h => absurd h1 h, ?_⟩
    · by_cases hs : (w.heap f).join_info = NULL
      · simp [fiber_tryjoin_exchange, fiber_manager_clear_or_wait, h1, hs]
      · simp [fiber_tryjoin_exchange, fiber_manager_clear_or_wait, fiber_manager_schedule,
          h1, hs, World.update_detach_state]
    · exact ⟨fun _ => Or.inl h1, fun _ => heq⟩
  · have hc : fiber_tryjoin_exchange w f result =
        (w.update f (fun fb => { fb with detach_state := FIBER_DETACH_WAIT_TO_JOIN }),
          result, Outcome.returned FIBER_ERROR) := by
      simp [fiber_tryjoin_exchange, h1]
    have hsp : spec_tryjoin_compare_exchange w f result =
        (w, result, Outcome.returned FIBER_ERROR) := by
      simp [spec_tryjoin_compare_exchange, h1]
    refine ⟨by rw [hc, hsp], by rw [hc]; simp, fun _ => ⟨by rw [hc], by rw [hsp],
      by rw [hc]⟩, ?_⟩
    rw [hc, hsp]
    constructor
    · intro h
      have hw : w.update f (fun fb => { fb with detach_state := FIBER_DETACH_WAIT_TO_JOIN })
          = w := congrArg Prod.fst h
      have hd := congrArg (fun v : World => (v.heap f).detach_state) hw
      simp at hd
      exact Or.inr hd.symm
    · intro h
      have h2 : (w.heap f).detach_state = FIBER_DETACH_WAIT_TO_JOIN := h.resolve_left h1
      have hw : w.update f (fun fb => { fb with detach_state := FIBER_DETACH_WAIT_TO_JOIN })
          = w := by
        apply World.update_eq_self
        rw [← h2]
      rw [hw]

/-- A run for C17: in `joinerFirst_joined` the exchange observes `WAIT_TO_JOIN`; the code
returns `FIBER_ERROR` and agrees with the compare-and-exchange. -/
theorem fiber_tryjoin_exchange_vs_compare_exchange_witness :
    (joinerFirst_joined.heap 1).detach_state ≠ FIBER_DETACH_WAIT_FOR_JOINER ∧
    (fiber_tryjoin_exchange joinerFirst_joined 1 (some 0)).2 =
      (some 0, Outcome.returned FIBER_ERROR) ∧
    fiber_tryjoin_exchange joinerFirst_joined 1 (some 0) =
      spec_tryjoin_compare_exchange joinerFirst_joined 1 (some 0) :=
  have h := fiber_tryjoin_exchange_vs_compare_exchange joinerFirst_joined 1 (some 0)
  ⟨by decide, (h.2.2.1 (by decide)).1, h.2.2.2.2 (Or.inr (by decide))⟩

/-- C17 fails as stated: fiber `2` reads `WAIT_FOR_JOINER` for fiber `1` in
`finisherFirst_completed`, fiber `3` detaches fiber `1`, and the exchange of fiber `2` then
observes `DETACHED`. The code returns `FIBER_ERROR`, but the detach state does not remain
`DETACHED`: it is `WAIT_TO_JOIN`, where the compare-and-exchange leaves `DETACHED`. The
last two facts are the same run as one call of `fiber_tryjoin_interleaved`. -/
theorem fiber_tryjoin_exchange_overwrites_detached :
    (finisherFirst_completed.heap 1).detach_state = FIBER_DETACH_WAIT_FOR_JOINER ∧
    (finisherFirst_detached.heap 1).detach_state = FIBER_DETACH_DETACHED ∧
    (fiber_tryjoin_exchange (finisherFirst_detached.switchTo 2) 1 (some 0)).2.2 =
      Outcome.returned FIBER_ERROR ∧
    ((fiber_tryjoin_exchange (finisherFirst_detached.switchTo 2) 1 (some 0)).1.heap
      1).detach_state = FIBER_DETACH_WAIT_TO_JOIN ∧
    ((fiber_tryjoin_exchange (finisherFirst_detached.switchTo 2) 1 (some 0)).1.heap
      1).detach_state ≠ (finisherFirst_detached.heap 1).detach_state ∧
    ((spec_tryjoin_compare_exchange (finisherFirst_detached.switchTo 2) 1 (some 0)).1.heap
      1).detach_state = FIBER_DETACH_DETACHED ∧
    (fiber_tryjoin_interleaved (finisherFirst_completed.switchTo 2) detachedMeanwhile 1
      (some 0)).2.2 = Outcome.returned FIBER_ERROR ∧
    ((fiber_tryjoin_interleaved (finisherFirst_completed.switchTo 2) detachedMeanwhile 1
      (some 0)).1.heap 1).detach_state = FIBER_DETACH_WAIT_TO_JOIN :=
  ⟨by decide, by decide, by decide, by decide, by decide, by decide, by decide, by decide⟩

/-! ## C18, C19: what the scan of `fiber_key_create` does -/

theorem fiber_key_create_loop_some (keys : Nat → Ptr) (remaining : Nat) :
    ∀ cnt k, fiber_key_create_loop keys remaining cnt = some k →
      cnt ≤ k ∧ k < cnt + remaining ∧ keys k ≠ NULL ∧
      ∀ j, cnt ≤ j → j < k → keys j = NULL := by
  induction remaining with
  | zero =>
    intro cnt k h
    simp [fiber_key_create_loop] at h
  | succ n ih =>
    intro cnt k h
    by_cases hc : keys cnt = NULL
    · simp only [fiber_key_create_loop, hc, ne_eq, not_true_eq_false, if_false] at h
      obtain ⟨h1, h2, h3, h4⟩ := ih (cnt + 1) k h
      refine ⟨by omega, by omega, h3, ?_⟩
      intro j hj1 hj2
      by_cases hj : j = cnt
      · rw [hj]; exact hc
      · exact h4 j (by omega) hj2
    · simp only [fiber_key_create_loop, ne_eq, hc, not_false_eq_true, if_true,
        Option.some.injEq] at h
      subst h
      exact ⟨le_refl _, by omega, hc, fun j h1 h2 => absurd h1 (by omega)⟩

theorem fiber_key_create_loop_none (keys : Nat → Ptr) (remaining : Nat) :
    ∀ cnt, fiber_key_create_loop keys remaining cnt = none →
      ∀ j, cnt ≤ j → j < cnt + remaining → keys j = NULL := by
  induction remaining with
  | zero =>
    intro cnt _ j h1 h2
    omega
  | succ n ih =>
    intro cnt h j h1 h2
    by_cases hc : keys cnt = NULL
    · simp only [fiber_key_create_loop, hc, ne_eq, not_true_eq_false, if_false] at h
      by_cases hj : j = cnt
      · rw [hj]; exact hc
      · exact ih (cnt + 1) h j (by omega) (by omega)
    · simp [fiber_key_create_loop, hc] at h

/-- C18. For every registry: `fiber_key_create` returns `FIBER_ERROR` exactly when every one
of the 1024 slots is `NULL` (so on `Registry.zero`), and then leaves `*key` alone; it returns
`FIBER_SUCCESS` exactly when some slot below 1024 is not `NULL`, and then `*key` is the
smallest index whose slot is not `NULL`. -/
theorem fiber_key_create_finds_occupied_slot (g : Registry) (key : Nat) :
    ((fiber_key_create g key).2.2 = FIBER_ERROR ↔
      ∀ i, i < FIBER_KEYS_MAX → g.__fiber_keys i = NULL) ∧
    ((fiber_key_create g key).2.2 = FIBER_ERROR → (fiber_key_create g key).2.1 = key) ∧
    ((fiber_key_create g key).2.2 = FIBER_SUCCESS ↔
      ∃ i, i < FIBER_KEYS_MAX ∧ g.__fiber_keys i ≠ NULL) ∧
    ((fiber_key_create g key).2.2 = FIBER_SUCCESS →
      (fiber_key_create g key).2.1 < FIBER_KEYS_MAX ∧
      g.__fiber_keys (fiber_key_create g key).2.1 ≠ NULL ∧
      ∀ j, j < (fiber_key_create g key).2.1 → g.__fiber_keys j = NULL) ∧
    (fiber_key_create Registry.zero key).2.2 = FIBER_ERROR := by
  have hz : (fiber_key_create Registry.zero key).2.2 = FIBER_ERROR := by
    simp [fiber_key_create, fiber_key_create_loop_all_null Registry.zero.__fiber_keys
      (fun _ => rfl)]
  cases hl : fiber_key_create_loop g.__fiber_keys FIBER_KEYS_MAX 0 with
  | none =>
    have hall := fiber_key_create_loop_none g.__fiber_keys FIBER_KEYS_MAX 0 hl
    have hall2 : ∀ i, i < FIBER_KEYS_MAX → g.__fiber_keys i = NULL :=
      fun i hi => hall i (Nat.zero_le _) (by omega)
    have hr : fiber_key_create g key = (g, key, FIBER_ERROR) := by
      simp [fiber_key_create, hl]
    rw [hr]
    refine ⟨⟨fun _ => hall2, fun _ => rfl⟩, fun _ => rfl, ⟨fun h => ?_, fun h => ?_⟩,
      fun h => ?_, hz⟩
    · simp at h
    · obtain ⟨i, hi, hne⟩ := h
      exact absurd (hall2 i hi) hne
    · simp at h
  | some k =>
    obtain ⟨-, hk, hne, hmin⟩ := fiber_key_create_loop_some g.__fiber_keys FIBER_KEYS_MAX 0 k hl
    have hk2 : k < FIBER_KEYS_MAX := by omega
    have hr : fiber_key_create g key = (g, k, FIBER_SUCCESS) := by
      simp [fiber_key_create, hl]
    rw [hr]
    refine ⟨⟨fun h => ?_, fun h => ?_⟩, fun h => ?_, ⟨fun _ => ⟨k, hk2, hne⟩, fun _ => rfl⟩,
      fun _ => ⟨hk2, hne, fun j hj => hmin j (Nat.zero_le _) hj⟩, hz⟩
    · simp at h
    · exact absurd (h k hk2) hne
    · simp at h

/-- A run for C18: in `Registry.oneUsed` only slot `5` is occupied and `fiber_key_create`
returns `FIBER_SUCCESS` with `*key = 5`. -/
theorem fiber_key_create_finds_occupied_slot_witness :
    (∃ i, i < FIBER_KEYS_MAX ∧ Registry.oneUsed.__fiber_keys i ≠ NULL) ∧
    (fiber_key_create Registry.oneUsed 0).2.2 = FIBER_SUCCESS ∧
    (fiber_key_create Registry.oneUsed 0).2.1 = 5 :=
  have h := fiber_key_create_finds_occupied_slot Registry.oneUsed 0
  ⟨⟨5, by decide, by decide⟩, h.2.2.1.2 ⟨5, by decide, by decide⟩, by decide⟩

/-- C19. For every registry `fiber_key_create` leaves the registry (table and counter) as
it was. So a second call right after the first returns the same status whatever `*key`
holds, returns the same key when the status is `FIBER_SUCCESS`, and called on the same
`*key` gives exactly what the first call gave: the created key is not reserved. -/
theorem fiber_key_create_changes_nothing (g : Registry) (key key2 : Nat) :
    (fiber_key_create g key).1 = g ∧
    (fiber_key_create (fiber_key_create g key).1 key2).2.2 = (fiber_key_create g key).2.2 ∧
    ((fiber_key_create g key).2.2 = FIBER_SUCCESS →
      (fiber_key_create (fiber_key_create g key).1 key2).2.1 =
        (fiber_key_create g key).2.1) ∧
    fiber_key_create (fiber_key_create g key).1 (fiber_key_create g key).2.1 =
      fiber_key_create g key := by
  cases hl : fiber_key_create_loop g.__fiber_keys FIBER_KEYS_MAX 0 with
  | none => simp [fiber_key_create, hl]
  | some k => simp [fiber_key_create, hl]

/-- A run for C19: on `Registry.oneUsed` two calls in a row both return key `5`. -/
theorem fiber_key_create_changes_nothing_witness :
    (fiber_key_create Registry.oneUsed 0).2.2 = FIBER_SUCCESS ∧
    (fiber_key_create (fiber_key_create Registry.oneUsed 0).1 1).2.1 = 5 ∧
    (fiber_key_create Registry.oneUsed 0).2.1 = 5 :=
  have h := fiber_key_create_changes_nothing Registry.oneUsed 0 1
  ⟨by decide, (h.2.2.1 (by decide)).trans (by decide), by decide⟩

/-! ## C20: the out-parameter on failure, the joiner's result field on success -/

/-- C20. With a non-null out-parameter holding any `x` before the call: when `fiber_join`
or `fiber_tryjoin` returns `FIBER_ERROR` the out-parameter holds `NULL`, also when other
fibers run between the reads and the exchange of `fiber_tryjoin`. When a join that parked
its caller `c` runs on, it returns `FIBER_SUCCESS` and the result field of `c` is `NULL`
afterwards; in the joiner-first run from detach state `NONE` that field held `r` just
before and `r` is what the out-parameter receives. -/
theorem out_parameter_null_on_error (w : World) (env : World → World) (f c F J r x : Ptr)
    (res : Option Ptr) :
    ((fiber_join w f (some x)).2.2 = Outcome.returned FIBER_ERROR →
      (fiber_join w f (some x)).2.1 = some NULL) ∧
    ((fiber_tryjoin w f (some x)).2.2 = Outcome.returned FIBER_ERROR →
      (fiber_tryjoin w f (some x)).2.1 = some NULL) ∧
    ((fiber_tryjoin_interleaved w env f (some x)).2.2 = Outcome.returned FIBER_ERROR →
      (fiber_tryjoin_interleaved w env f (some x)).2.1 = some NULL) ∧
    ((fiber_join_resume w c res).2.2 = Outcome.returned FIBER_SUCCESS ∧
      ((fiber_join_resume w c res).1.heap c).result = NULL) ∧
    (F ≠ NULL → J ≠ NULL → (w.heap F).detach_state = FIBER_DETACH_NONE →
      (fiber_join (w.switchTo J) F (some x)).2.2 = Outcome.suspended ∧
      ((fiber_mark_completed ((fiber_join (w.switchTo J) F (some x)).1.switchTo F) F
        r).1.heap J).result = r ∧
      (fiber_join_resume
        ((fiber_mark_completed ((fiber_join (w.switchTo J) F (some x)).1.switchTo F) F
          r).1.switchTo J) J (fiber_join (w.switchTo J) F (some x)).2.1).2 =
        (some r, Outcome.returned FIBER_SUCCESS) ∧
      ((fiber_join_resume
        ((fiber_mark_completed ((fiber_join (w.switchTo J) F (some x)).1.switchTo F) F
          r).1.switchTo J) J (fiber_join (w.switchTo J) F (some x)).2.1).1.heap J).result =
        NULL) := by
  refine ⟨?_, ?_, ?_, ?_, ?_⟩
  · by_cases hf : f = NULL
    · simp [fiber_join, hf]
    by_cases h3 : (w.heap f).detach_state = FIBER_DETACH_DETACHED
    · simp [fiber_join, hf, h3]
    by_cases h0 : (w.heap f).detach_state = FIBER_DETACH_NONE
    · simp [fiber_join, hf, h0]
    by_cases h1 : (w.heap f).detach_state = FIBER_DETACH_WAIT_FOR_JOINER
    · by_cases hs : (w.heap f).join_info = NULL
      · simp [fiber_join, fiber_manager_clear_or_wait, hf, h1, hs]
      · simp [fiber_join, fiber_manager_clear_or_wait, hf, h1, hs]
    · simp [fiber_join, hf, h3, h0, h1]
  · by_cases hf : f = NULL
    · simp [fiber_tryjoin, hf]
    by_cases h3 : (w.heap f).detach_state = FIBER_DETACH_DETACHED
    · simp [fiber_tryjoin, hf, h3]
    by_cases h1 : (w.heap f).detach_state = FIBER_DETACH_WAIT_FOR_JOINER
    · by_cases hs : (w.heap f).join_info = NULL
      · simp [fiber_tryjoin, fiber_tryjoin_exchange, fiber_manager_clear_or_wait, hf, h1, hs]
      · simp [fiber_tryjoin, fiber_tryjoin_exchange, fiber_manager_clear_or_wait, hf, h1, hs]
    · simp [fiber_tryjoin, hf, h3, h1]
  · by_cases hf : f = NULL
    · simp [fiber_tryjoin_interleaved, hf]
    by_cases h3 : (w.heap f).detach_state = FIBER_DETACH_DETACHED
    · simp [fiber_tryjoin_interleaved, hf, h3]
    by_cases h1 : (w.heap f).detach_state = FIBER_DETACH_WAIT_FOR_JOINER
    · by_cases e1 : ((env w).heap f).detach_state = FIBER_DETACH_WAIT_FOR_JOINER
      · by_cases hs : ((env w).heap f).join_info = NULL
        · simp [fiber_tryjoin_interleaved, fiber_tryjoin_exchange,
            fiber_manager_clear_or_wait, hf, h1, e1, hs]
        · simp [fiber_tryjoin_interleaved, fiber_tryjoin_exchange,
            fiber_manager_clear_or_wait, hf, h1, e1, hs]
      · simp [fiber_tryjoin_interleaved, fiber_tryjoin_exchange, hf, h1, e1]
    · simp [fiber_tryjoin_interleaved, hf, h3, h1]
  · simp [fiber_join_resume]
  · intro hF hJ hds
    by_cases hJF : J = F
    · subst hJF
      simp [fiber_mark_completed, fiber_join, fiber_join_resume, fiber_manager_set_and_wait,
        fiber_manager_clear_or_wait, fiber_manager_schedule, fiber_mark_completed_resume,
        hds, hF]
    · have hFJ : F ≠ J := fun h => hJF h.symm
      simp [fiber_mark_completed, fiber_join, fiber_join_resume, fiber_manager_set_and_wait,
        fiber_manager_clear_or_wait, fiber_manager_schedule, fiber_mark_completed_resume,
        hds, hF, hJ, hJF, hFJ, World.update_heap_other]

/-- A run for C20: in `joinerFirst_joined` the join of fiber `3` on fiber `1` fails and its
out-parameter, which held `9`, holds `NULL`. -/
theorem out_parameter_null_on_error_witness :
    (fiber_join (joinerFirst_joined.switchTo 3) 1 (some 9)).2.2 =
      Outcome.returned FIBER_ERROR ∧
    (fiber_join (joinerFirst_joined.switchTo 3) 1 (some 9)).2.1 = some NULL ∧
    ((1 : Ptr) ≠ NULL ∧ (2 : Ptr) ≠ NULL ∧
      (World.init.heap 1).detach_state = FIBER_DETACH_NONE) ∧
    (joinerFirst_resumed.heap 2).result = NULL :=
  have h := out_parameter_null_on_error (joinerFirst_joined.switchTo 3) id 1 2 1 2 7 9 none
  have h0 := (out_parameter_null_on_error World.init id 1 2 1 2 7 0 none).2.2.2.2
    (by decide) (by decide) rfl
  ⟨by decide, h.1 (by decide), ⟨by decide, by decide, rfl⟩, h0.2.2.2⟩

end LibFiber
